import Mathlib

/-!
Verification of the ChemTRAC advanced risk pipeline (`scripts/run_pipeline.py`).

The numeric computations of the pipeline are modelled over `ℚ` (exact
rational arithmetic) except for the great-circle proximity model, which uses
transcendental functions and is modelled over `ℝ`.  Strings are modelled as
`String`, with Python's substring containment (`key in name`) translated to an
explicit list-based scan.
-/

namespace ChemTrac

/-! ## Substring containment (Python `needle in hay`) -/

/-- Boolean prefix test on character lists. -/
def listPrefixB : List Char → List Char → Bool
  | [], _ => true
  | _ :: _, [] => false
  | a :: as, b :: bs => a == b && listPrefixB as bs

/-- Boolean contiguous-substring test on character lists. -/
def listSubB (needle : List Char) : List Char → Bool
  | [] => needle.isEmpty
  | c :: rest => listPrefixB needle (c :: rest) || listSubB needle rest

/-- Python's `needle in hay` substring containment for strings. -/
def strHasSub (hay needle : String) : Bool :=
  listSubB needle.toList hay.toList

/-! ## Toxicity knowledge base (`CHEMICAL_TOXICITY` in `run_pipeline.py`)

An ordered association list; the iteration order is the Python `dict`
insertion order, which is exactly the textual order in the source. -/

def CHEMICAL_TOXICITY : List (String × ℚ) := [
  ("mercury", 100.0),
  ("lead", 95.0),
  ("formaldehyde", 92.0),
  ("hexavalent chromium", 90.0),
  ("chromium (vi)", 90.0),
  ("benzene", 88.0),
  ("cadmium", 87.0),
  ("tetrachloroethylene", 82.0),
  ("perchloroethylene", 82.0),
  ("trichloroethylene", 80.0),
  ("dichloromethane", 78.0),
  ("methylene chloride", 78.0),
  ("arsenic", 95.0),
  ("nickel", 75.0),
  ("styrene", 72.0),
  ("benzo(a)pyrene", 85.0),
  ("polycyclic aromatic hydrocarbons", 83.0),
  ("pahs", 83.0),
  ("dioxins", 90.0),
  ("pcbs", 85.0),
  ("nitrogen oxides", 68.0),
  ("nox", 68.0),
  ("sulfur dioxide", 65.0),
  ("so2", 65.0),
  ("particulate matter", 70.0),
  ("pm2.5", 74.0),
  ("pm10", 66.0),
  ("ammonia", 62.0),
  ("volatile organic compounds", 58.0),
  ("vocs", 58.0),
  ("toluene", 60.0),
  ("xylene", 58.0),
  ("ethylbenzene", 56.0),
  ("acetone", 45.0),
  ("methanol", 50.0),
  ("carbon monoxide", 52.0),
  ("co", 52.0),
  ("hydrogen chloride", 55.0),
  ("hcl", 55.0)]

/-- The toxicity-resolution loop of `run_risk_model` (lines 222-227), recursing
over the (remaining) knowledge base: start from the default `30.0`; on the
first key that is a substring of the (already lower-cased and trimmed)
chemical name, take `max 30 score` and stop. -/
def toxicityFrom : List (String × ℚ) → String → ℚ
  | [], _ => 30.0
  | (key, score) :: rest, chem =>
    if strHasSub chem key then max 30.0 score else toxicityFrom rest chem

/-- Toxicity resolution against the full knowledge base, as performed per row
in `run_risk_model`.  The argument is the normalized (lower-cased, trimmed)
chemical name. -/
def resolveToxicity (chem : String) : ℚ := toxicityFrom CHEMICAL_TOXICITY chem

/-! Generic facts about the resolver. -/

lemma toxicityFrom_of_first_match :
    ∀ (kb : List (String × ℚ)) (chem : String) (i : ℕ) (hi : i < kb.length),
      strHasSub chem (kb.get ⟨i, hi⟩).1 = true →
      (∀ j (hj : j < i), strHasSub chem (kb.get ⟨j, hj.trans hi⟩).1 = false) →
      toxicityFrom kb chem = max 30.0 (kb.get ⟨i, hi⟩).2 := by
  intro kb
  induction kb with
  | nil => intro chem i hi; simp at hi
  | cons p rest ih =>
    intro chem i hi hmatch hearlier
    match i with
    | 0 =>
      simp only [List.get] at hmatch
      obtain ⟨key, score⟩ := p
      simp [toxicityFrom, hmatch]
    | Nat.succ n =>
      have h0 : strHasSub chem p.1 = false := by
        have := hearlier 0 (Nat.succ_pos n)
        simpa using this
      obtain ⟨key, score⟩ := p
      simp only [toxicityFrom]
      rw [if_neg (by simp_all)]
      have hn : n < rest.length := Nat.lt_of_succ_lt_succ hi
      have := ih chem n hn (by simpa using hmatch)
        (fun j hj => by
          have := hearlier (j + 1) (Nat.succ_lt_succ hj)
          simpa using this)
      simpa using this

lemma toxicityFrom_no_match :
    ∀ (kb : List (String × ℚ)) (chem : String),
      (∀ p ∈ kb, strHasSub chem p.1 = false) →
      toxicityFrom kb chem = 30.0 := by
  intro kb
  induction kb with
  | nil => intro chem _; rfl
  | cons p rest ih =>
    intro chem h
    obtain ⟨key, score⟩ := p
    have h0 : strHasSub chem key = false := h (key, score) (by simp)
    simp only [toxicityFrom]
    rw [if_neg (by simp [h0])]
    exact ih chem (fun q hq => h q (by simp [hq]))

lemma le_toxicityFrom (kb : List (String × ℚ)) (chem : String) :
    (30.0 : ℚ) ≤ toxicityFrom kb chem := by
  induction kb with
  | nil => norm_num [toxicityFrom]
  | cons p rest ih =>
    obtain ⟨key, score⟩ := p
    simp only [toxicityFrom]
    split
    · exact le_max_left _ _
    · exact ih

lemma toxicityFrom_take :
    ∀ (kb : List (String × ℚ)) (chem : String) (i : ℕ) (hi : i < kb.length),
      strHasSub chem (kb.get ⟨i, hi⟩).1 = true →
      toxicityFrom kb chem = toxicityFrom (kb.take (i + 1)) chem := by
  intro kb
  induction kb with
  | nil => intro chem i hi; simp at hi
  | cons p rest ih =>
    intro chem i hi hmatch
    obtain ⟨key, score⟩ := p
    match i with
    | 0 =>
      have h0 : strHasSub chem key = true := by simpa using hmatch
      simp [List.take, toxicityFrom, h0]
    | Nat.succ n =>
      simp only [List.take, toxicityFrom]
      split
      · rfl
      · exact ih chem n (Nat.lt_of_succ_lt_succ hi) (by simpa using hmatch)

/-- **C3.** For a (lower-cased, trimmed) chemical name whose first matching
knowledge-base key sits at index `i` (no earlier key matches) while some
later key also matches with a strictly higher score, toxicity resolution
returns `max 30.0 s` for the score `s` at index `i`; no later key is
consulted, i.e. the result already equals the resolution against the
knowledge base truncated just after index `i`. -/
theorem toxicity_first_match_wins (chem : String) (i : ℕ)
    (hi : i < CHEMICAL_TOXICITY.length)
    (hmatch : strHasSub chem (CHEMICAL_TOXICITY.get ⟨i, hi⟩).1 = true)
    (hfirst : ∀ j (hj : j < i),
      strHasSub chem (CHEMICAL_TOXICITY.get ⟨j, hj.trans hi⟩).1 = false)
    (_hlater : ∃ j, ∃ hj : j < CHEMICAL_TOXICITY.length, i < j ∧
      strHasSub chem (CHEMICAL_TOXICITY.get ⟨j, hj⟩).1 = true ∧
      (CHEMICAL_TOXICITY.get ⟨i, hi⟩).2 < (CHEMICAL_TOXICITY.get ⟨j, hj⟩).2) :
    resolveToxicity chem = max 30.0 (CHEMICAL_TOXICITY.get ⟨i, hi⟩).2 ∧
    resolveToxicity chem = toxicityFrom (CHEMICAL_TOXICITY.take (i + 1)) chem :=
  ⟨toxicityFrom_of_first_match CHEMICAL_TOXICITY chem i hi hmatch hfirst,
   toxicityFrom_take CHEMICAL_TOXICITY chem i hi hmatch⟩

/-- Witness for C3: `"trichloroethylene arsenic"` first matches
`"trichloroethylene"` (index 9, score 80) even though the later key
`"arsenic"` (index 12, score 95) also matches with a higher score; the
result is 80, not 95. -/
theorem toxicity_first_match_wins_witness :
    resolveToxicity "trichloroethylene arsenic" = 80.0 := by
  have h := toxicity_first_match_wins "trichloroethylene arsenic" 9
    (by norm_num [CHEMICAL_TOXICITY]) (by decide) (by decide)
    ⟨12, by norm_num [CHEMICAL_TOXICITY], by norm_num, by decide,
      by norm_num [CHEMICAL_TOXICITY]⟩
  rw [h.1]
  exact max_eq_right (by norm_num [CHEMICAL_TOXICITY])

/-- **C8.** For a (lower-cased, trimmed) chemical name containing no
knowledge-base key as a substring, toxicity resolution returns exactly
`30.0`.  (The resolver is a total function, so no error is possible.) -/
theorem toxicity_default_unmatched (chem : String)
    (h : ∀ p ∈ CHEMICAL_TOXICITY, strHasSub chem p.1 = false) :
    resolveToxicity chem = 30.0 :=
  toxicityFrom_no_match CHEMICAL_TOXICITY chem h

/-- Witness for C8: `"water"` matches no knowledge-base key and resolves
to exactly 30. -/
theorem toxicity_default_unmatched_witness :
    resolveToxicity "water" = 30.0 :=
  toxicity_default_unmatched "water" (by decide)

/-! ## Name normalization (`str(r["chemical_name"]).lower().strip()`) -/

/-- Python-style whitespace test (adequate for the claims considered). -/
def isSpaceB (c : Char) : Bool :=
  c == ' ' || c == '\t' || c == '\n' || c == '\r'

/-- Python `.strip()` on a character list. -/
def stripChars (s : List Char) : List Char :=
  ((s.dropWhile isSpaceB).reverse.dropWhile isSpaceB).reverse

/-- `str(...).lower().strip()` from `run_risk_model` line 220: lower-case
every character, then trim surrounding whitespace. -/
def normalizeName (s : String) : String :=
  ⟨stripChars (s.toList.map Char.toLower)⟩

/-- Toxicity of a raw chemical name, as resolved per row. -/
def rowToxicity (name : String) : ℚ := resolveToxicity (normalizeName name)

/-! ## Release rows and the exposure aggregator (`run_risk_model`) -/

/-- One clean release row (one `(facility, chemical)` disclosure), as read
from `chemtrac_rows_clean.csv`.  The five release quantities were coerced to
numbers (missing values to 0) by `run_cleaning`; the use-type flags are the
raw values compared against `1` by the aggregator. -/
structure Row where
  chemical_name : String
  rel_air : ℚ
  rel_water : ℚ
  rel_land : ℚ
  rel_disposal : ℚ
  rel_recycling : ℚ
  use_manufactured : ℚ
  use_processed : ℚ
  use_other_use : ℚ

/-- `total_release_kg`, computed by `run_cleaning` (lines 191-194) as the sum
of the five pathway quantities. -/
def total_release_kg (r : Row) : ℚ :=
  r.rel_air + r.rel_land + r.rel_water + r.rel_disposal + r.rel_recycling

/-- The five release pathways. -/
inductive Pathway
  | air
  | water
  | land
  | disposal
  | recycling
deriving DecidableEq

/-- `EXPOSURE_WEIGHTS` (lines 92-98). -/
def EXPOSURE_WEIGHTS : Pathway → ℚ
  | Pathway.air => 1.0
  | Pathway.water => 0.95
  | Pathway.land => 0.7
  | Pathway.disposal => 0.3
  | Pathway.recycling => 0.15

/-- The `exposure_paths` list built per row (lines 240-250): each pathway with
strictly positive quantity, in source order. -/
def exposure_paths (r : Row) : List (Pathway × ℚ) :=
  (if r.rel_air > 0 then [(Pathway.air, r.rel_air)] else []) ++
  (if r.rel_water > 0 then [(Pathway.water, r.rel_water)] else []) ++
  (if r.rel_land > 0 then [(Pathway.land, r.rel_land)] else []) ++
  (if r.rel_disposal > 0 then [(Pathway.disposal, r.rel_disposal)] else []) ++
  (if r.rel_recycling > 0 then [(Pathway.recycling, r.rel_recycling)] else [])

/-- `USE_WEIGHTS` (lines 101-105). -/
def USE_WEIGHTS_manufactured : ℚ := 1.0

def USE_WEIGHTS_processed : ℚ := 0.8

def USE_WEIGHTS_other : ℚ := 0.5

/-- `use_weights_applied` (lines 253-259): the use-type weights whose flag
equals 1, in source order. -/
def use_weights_applied (r : Row) : List ℚ :=
  (if r.use_manufactured = 1 then [USE_WEIGHTS_manufactured] else []) ++
  (if r.use_processed = 1 then [USE_WEIGHTS_processed] else []) ++
  (if r.use_other_use = 1 then [USE_WEIGHTS_other] else [])

/-- `use_weight = max(use_weights_applied) if use_weights_applied else 0.4`
(line 261). -/
def use_weight (r : Row) : ℚ :=
  match use_weights_applied r with
  | [] => 0.4
  | w :: ws => ws.foldl max w

/-- The mutable per-facility accumulators of the `run_risk_model` group loop
(lines 212-217). -/
structure AggState where
  toxicity_weighted_exposure : ℚ
  max_single_chemical_toxicity : ℚ
  carcinogen_count : ℕ
  heavy_metal_kg : ℚ
  chemical_details : List (String × ℚ × ℚ)

/-- Initial accumulator values (lines 212-217). -/
def initState : AggState :=
  ⟨0.0, 0.0, 0, 0.0, []⟩

/-- The heavy-metal name list of line 234. -/
def HEAVY_METALS : List String :=
  ["mercury", "lead", "cadmium", "chromium", "arsenic"]

/-- One iteration of the row loop of `run_risk_model` (lines 219-273):
resolve toxicity, count carcinogens (toxicity ≥ 80), accumulate heavy-metal
mass, update the max toxicity, add the weighted exposure contribution of
every active pathway, and append the per-chemical detail record
`(name, total_release_kg, toxicity)`. -/
def processRow (st : AggState) (r : Row) : AggState :=
  let chem_name := normalizeName r.chemical_name
  let toxicity_score := resolveToxicity chem_name
  let carcinogen_count :=
    if 80 ≤ toxicity_score then st.carcinogen_count + 1 else st.carcinogen_count
  let heavy_metal_kg :=
    if HEAVY_METALS.any (fun metal => strHasSub chem_name metal) then
      st.heavy_metal_kg + total_release_kg r
    else st.heavy_metal_kg
  let max_tox := max st.max_single_chemical_toxicity toxicity_score
  let exposure := (exposure_paths r).foldl
    (fun acc p => acc + p.2 * (toxicity_score / 100.0) * EXPOSURE_WEIGHTS p.1 * use_weight r)
    st.toxicity_weighted_exposure
  { toxicity_weighted_exposure := exposure
    max_single_chemical_toxicity := max_tox
    carcinogen_count := carcinogen_count
    heavy_metal_kg := heavy_metal_kg
    chemical_details := st.chemical_details ++ [(r.chemical_name, total_release_kg r, toxicity_score)] }

/-- The whole per-facility aggregation loop over a facility's rows. -/
def aggregate (g : List Row) : AggState :=
  g.foldl processRow initState

/-! ## C5: the aggregator computes the spec's double-sum formula

The following `claim_*` definitions are written from the words of the claim
(and of spec §4.2), independently of the loop above, for the refinement
comparison. -/

/-- Claim-side use weight: the maximum weight among the set use-type flags
(`manufactured 1.0 > processed 0.8 > other 0.5`, so the maximum is decided by
the highest-weighted flag that is set), `0.4` when no use flag is set. -/
def claim_use_weight (r : Row) : ℚ :=
  if r.use_manufactured = 1 then 1.0
  else if r.use_processed = 1 then 0.8
  else if r.use_other_use = 1 then 0.5
  else 0.4

/-- Claim-side per-row contribution: over the pathways with quantity `> 0`,
sum `quantity × (toxicity / 100) × pathway weight × use weight`. -/
def claim_row_exposure (r : Row) : ℚ :=
  (if r.rel_air > 0 then
    r.rel_air * (rowToxicity r.chemical_name / 100.0) * 1.0 * claim_use_weight r else 0) +
  (if r.rel_water > 0 then
    r.rel_water * (rowToxicity r.chemical_name / 100.0) * 0.95 * claim_use_weight r else 0) +
  (if r.rel_land > 0 then
    r.rel_land * (rowToxicity r.chemical_name / 100.0) * 0.7 * claim_use_weight r else 0) +
  (if r.rel_disposal > 0 then
    r.rel_disposal * (rowToxicity r.chemical_name / 100.0) * 0.3 * claim_use_weight r else 0) +
  (if r.rel_recycling > 0 then
    r.rel_recycling * (rowToxicity r.chemical_name / 100.0) * 0.15 * claim_use_weight r else 0)

/-- Claim-side facility exposure: sum of the row contributions. -/
def claim_exposure (g : List Row) : ℚ :=
  (g.map claim_row_exposure).sum

lemma use_weight_eq (r : Row) : use_weight r = claim_use_weight r := by
  unfold use_weight use_weights_applied claim_use_weight
      USE_WEIGHTS_manufactured USE_WEIGHTS_processed USE_WEIGHTS_other
  by_cases hm : r.use_manufactured = 1 <;> by_cases hp : r.use_processed = 1 <;>
    by_cases ho : r.use_other_use = 1 <;>
      simp [hm, hp, ho, max_def] <;> norm_num

lemma foldl_exposure (t u : ℚ) :
    ∀ (l : List (Pathway × ℚ)) (a : ℚ),
      l.foldl (fun acc p => acc + p.2 * t * EXPOSURE_WEIGHTS p.1 * u) a
        = a + (l.map (fun p => p.2 * t * EXPOSURE_WEIGHTS p.1 * u)).sum := by
  intro l
  induction l with
  | nil => intro a; simp
  | cons x tl ih => intro a; simp [ih]; ring

lemma row_exposure_eq (r : Row) :
    ((exposure_paths r).map
      (fun p => p.2 * (rowToxicity r.chemical_name / 100.0) * EXPOSURE_WEIGHTS p.1 * use_weight r)).sum
      = claim_row_exposure r := by
  unfold exposure_paths claim_row_exposure
  rw [use_weight_eq]
  split_ifs <;> simp [EXPOSURE_WEIGHTS] <;> ring

lemma processRow_exposure (st : AggState) (r : Row) :
    (processRow st r).toxicity_weighted_exposure =
      st.toxicity_weighted_exposure + claim_row_exposure r := by
  show (exposure_paths r).foldl _ st.toxicity_weighted_exposure = _
  rw [foldl_exposure (resolveToxicity (normalizeName r.chemical_name) / 100.0) (use_weight r)]
  rw [show (resolveToxicity (normalizeName r.chemical_name)) = rowToxicity r.chemical_name from rfl]
  rw [row_exposure_eq]

lemma aggregate_exposure_from (g : List Row) :
    ∀ st : AggState, (g.foldl processRow st).toxicity_weighted_exposure =
      st.toxicity_weighted_exposure + claim_exposure g := by
  induction g with
  | nil => intro st; simp [claim_exposure]
  | cons r t ih =>
    intro st
    rw [List.foldl_cons, ih, processRow_exposure]
    simp [claim_exposure]
    ring

/-- **C5.** For every facility group of release rows, the toxicity-weighted
exposure computed by the aggregation loop equals the claim's double sum: over
rows and over pathways with quantity `> 0`, pathway quantity × (resolved
toxicity / 100) × fixed pathway weight × use weight, the use weight being the
maximum weight among the set use-type flags and `0.4` when none is set. -/
theorem exposure_eq_claim_formula (g : List Row) :
    (aggregate g).toxicity_weighted_exposure = claim_exposure g := by
  have h := aggregate_exposure_from g initState
  rw [aggregate, h]
  norm_num [initState]

/-- **C10.** A release row whose five pathway quantities are all zero
contributes exactly 0 to the facility's toxicity-weighted exposure, yet its
resolved toxicity still counts toward the carcinogen count (when ≥ 80) and
the facility's maximum single-chemical toxicity, and the chemical still
appears in the per-chemical detail list with mass 0. -/
theorem zero_release_row_effects (st : AggState) (r : Row)
    (hair : r.rel_air = 0) (hwater : r.rel_water = 0) (hland : r.rel_land = 0)
    (hdisp : r.rel_disposal = 0) (hrec : r.rel_recycling = 0) :
    (processRow st r).toxicity_weighted_exposure = st.toxicity_weighted_exposure ∧
    (processRow st r).carcinogen_count =
      st.carcinogen_count + (if 80 ≤ rowToxicity r.chemical_name then 1 else 0) ∧
    (processRow st r).max_single_chemical_toxicity =
      max st.max_single_chemical_toxicity (rowToxicity r.chemical_name) ∧
    (processRow st r).chemical_details =
      st.chemical_details ++ [(r.chemical_name, 0, rowToxicity r.chemical_name)] := by
  have htot : total_release_kg r = 0 := by
    simp [total_release_kg, hair, hwater, hland, hdisp, hrec]
  refine ⟨?_, ?_, ?_, ?_⟩
  · rw [processRow_exposure]
    simp [claim_row_exposure, hair, hwater, hland, hdisp, hrec]
  · show (if (80 : ℚ) ≤ resolveToxicity (normalizeName r.chemical_name) then
        st.carcinogen_count + 1 else st.carcinogen_count) = _
    simp only [rowToxicity]
    split_ifs <;> omega
  · rfl
  · show st.chemical_details ++ [(r.chemical_name, total_release_kg r, _)] = _
    rw [htot]
    rfl

/-- Witness for C10 at the row `("Mercury ", all quantities 0, no flags)`:
the exposure stays 0, the carcinogen count becomes 1 (toxicity 100 ≥ 80),
the max toxicity becomes 100 and the detail list records mass 0. -/
theorem zero_release_row_effects_witness :
    (processRow initState ⟨"Mercury ", 0, 0, 0, 0, 0, 0, 0, 0⟩).toxicity_weighted_exposure = 0 ∧
    (processRow initState ⟨"Mercury ", 0, 0, 0, 0, 0, 0, 0, 0⟩).carcinogen_count = 1 ∧
    (processRow initState ⟨"Mercury ", 0, 0, 0, 0, 0, 0, 0, 0⟩).max_single_chemical_toxicity = 100.0 ∧
    (processRow initState ⟨"Mercury ", 0, 0, 0, 0, 0, 0, 0, 0⟩).chemical_details
      = [("Mercury ", 0, 100.0)] := by
  have htox : rowToxicity "Mercury " = 100.0 := by
    have hn : normalizeName "Mercury " = "mercury" := by decide
    rw [rowToxicity, hn]
    have h := toxicityFrom_of_first_match CHEMICAL_TOXICITY "mercury" 0
      (by norm_num [CHEMICAL_TOXICITY]) (by decide)
      (fun j hj => absurd hj (Nat.not_lt_zero j))
    rw [resolveToxicity, h]
    exact max_eq_right (by norm_num [CHEMICAL_TOXICITY])
  obtain ⟨h1, h2, h3, h4⟩ := zero_release_row_effects initState
    ⟨"Mercury ", 0, 0, 0, 0, 0, 0, 0, 0⟩ rfl rfl rfl rfl rfl
  rw [htox] at h2 h3 h4
  refine ⟨h1.trans (by norm_num [initState]), ?_, ?_, ?_⟩
  · rw [h2]; norm_num [initState]
  · rw [h3]; show max (0.0 : ℚ) 100.0 = 100.0; exact max_eq_right (by norm_num)
  · rw [h4]; rfl

/-! ## C4: the anomaly vote combination (`run_anomaly_detection`, lines 403-412)

The four detector outputs are arbitrary booleans per facility (three of them
come from external library calls or data-dependent thresholds); the claim is
about how they are combined, so the combination is modelled as a function of
the four per-facility signal values. -/

/-- `.round(1)` — pandas rounding to one decimal place. -/
def round1 (x : ℚ) : ℚ := (round (x * 10) : ℚ) / 10

/-- `anomaly_votes`: the sum of the four 0/1 signals (lines 404-409). -/
def anomaly_votes (iso ind ext combo : Bool) : ℕ :=
  (if iso then 1 else 0) + (if ind then 1 else 0) +
  (if ext then 1 else 0) + (if combo then 1 else 0)

/-- `df["anomaly"] = anomaly_votes >= 2` (line 411). -/
def anomaly_flag (iso ind ext combo : Bool) : Bool :=
  decide (2 ≤ anomaly_votes iso ind ext combo)

/-- `df["anomaly_confidence"] = (anomaly_votes / 4.0 * 100).round(1)`
(line 412). -/
def anomaly_confidence (iso ind ext combo : Bool) : ℚ :=
  round1 ((anomaly_votes iso ind ext combo : ℚ) / 4.0 * 100.0)

/-- **C4.** For every facility (i.e. every combination of the four binary
signals) the anomaly confidence equals votes/4 × 100, is one of
{0, 25, 50, 75, 100}, and the anomaly flag is true iff the vote sum is ≥ 2,
equivalently iff the confidence is ≥ 50. -/
theorem anomaly_confidence_quantized (iso ind ext combo : Bool) :
    anomaly_confidence iso ind ext combo = (anomaly_votes iso ind ext combo : ℚ) / 4 * 100 ∧
    anomaly_confidence iso ind ext combo ∈ ({0, 25, 50, 75, 100} : Set ℚ) ∧
    (anomaly_flag iso ind ext combo = true ↔ 2 ≤ anomaly_votes iso ind ext combo) ∧
    (anomaly_flag iso ind ext combo = true ↔ 50 ≤ anomaly_confidence iso ind ext combo) := by
  cases iso <;> cases ind <;> cases ext <;> cases combo <;>
    refine ⟨?_, ?_, ?_, ?_⟩ <;>
      norm_num [anomaly_confidence, anomaly_votes, anomaly_flag, round1, round_eq,
        Int.floor_eq_iff, Set.mem_insert_iff]

/-! ## C9: web-JSON export of a facility absent from the risk table
(`export_web_json`, lines 431-436 and 454-467)

`risk_map` is `fac.set_index("facility_id").to_dict("index")`, i.e. a map
from facility id to its risk-table row; `risk_map.get(fid, {})` followed by
`.get(key, default)` on each field is modelled by an `Option`-valued lookup
with per-field defaults. -/

/-- The risk-and-anomaly fields of one row of
`facilities_with_risk_and_anomaly.csv` used by the export. -/
structure RiskRecord where
  risk_score : ℚ
  anomaly : Bool
  anomaly_confidence : ℚ
  proximity_multiplier : ℚ
  carcinogen_count : ℕ

/-- `round(x, 2)` — rounding to two decimal places. -/
def round2 (x : ℚ) : ℚ := (round (x * 100) : ℚ) / 100

/-- The exported risk-related fields of one facility record in
`facilities.json`. -/
structure WebFacility where
  risk_score : Option ℚ
  anomaly : Bool
  anomaly_confidence : ℚ
  proximity_risk : ℚ
  carcinogen_count : ℕ
deriving DecidableEq

/-- The risk-data part of the record built for facility `fid` by
`export_web_json` (lines 454-467): `risk_data = risk_map.get(fid, {})`,
`risk_data.get("risk_score")` (`None` when absent),
`bool(risk_data.get("anomaly", False))`,
`risk_data.get("anomaly_confidence", 0)`,
`round(risk_data.get("proximity_multiplier", 1.0), 2)` and
`int(risk_data.get("carcinogen_count", 0))`. -/
def export_record (risk_map : List (String × RiskRecord)) (fid : String) : WebFacility :=
  let risk_data := risk_map.lookup fid
  { risk_score := risk_data.map RiskRecord.risk_score
    anomaly := (risk_data.map RiskRecord.anomaly).getD false
    anomaly_confidence := (risk_data.map RiskRecord.anomaly_confidence).getD 0
    proximity_risk := round2 ((risk_data.map RiskRecord.proximity_multiplier).getD 1.0)
    carcinogen_count := (risk_data.map RiskRecord.carcinogen_count).getD 0 }

lemma lookup_eq_none_of_not_mem {β : Type} (l : List (String × β)) (k : String)
    (h : ∀ p ∈ l, p.1 ≠ k) : l.lookup k = none := by
  induction l with
  | nil => rfl
  | cons p t ih =>
    have hp : p.1 ≠ k := h p (by simp)
    have hbeq : (k == p.1) = false := by
      rw [beq_eq_false_iff_ne]
      exact fun hk => hp hk.symm
    simp only [List.lookup, hbeq]
    exact ih (fun q hq => h q (by simp [hq]))

/-- **C9.** For a facility identifier present in the clean row table but
absent from the risk-and-anomaly table, the export still produces a record
(the lookup is total), with `risk_score` null, `anomaly` false,
`anomaly_confidence` 0, `proximity_risk` 1.0 and `carcinogen_count` 0. -/
theorem export_missing_facility_defaults (risk_map : List (String × RiskRecord))
    (fid : String) (h : ∀ p ∈ risk_map, p.1 ≠ fid) :
    export_record risk_map fid =
      { risk_score := none, anomaly := false, anomaly_confidence := 0,
        proximity_risk := 1.0, carcinogen_count := 0 } := by
  have hl : risk_map.lookup fid = none := lookup_eq_none_of_not_mem risk_map fid h
  simp only [export_record, hl, Option.map_none', Option.getD_none]
  have h2 : round2 1.0 = 1.0 := by
    norm_num [round2, round_eq, Int.floor_eq_iff]
  rw [h2]

/-- Witness for C9: a one-row risk table for `"FAC_0001"` and the absent
identifier `"FAC_0002"`. -/
theorem export_missing_facility_defaults_witness :
    export_record [("FAC_0001", ⟨55.5, true, 75, 1.4, 2⟩)] "FAC_0002" =
      { risk_score := none, anomaly := false, anomaly_confidence := 0,
        proximity_risk := 1.0, carcinogen_count := 0 } :=
  export_missing_facility_defaults [("FAC_0001", ⟨55.5, true, 75, 1.4, 2⟩)] "FAC_0002"
    (by decide)

/-! ## C1: the industry-scoped outlier signal (`run_anomaly_detection`,
lines 379-391 and 403-409)

The loop iterates over `df["industry"].unique()` (first-appearance order),
appending to the flat list `industry_anomalies` either `[False] * count` for
an industry with fewer than 3 facilities or the per-industry isolation-forest
predictions.  The resulting list is ordered industry-block by industry-block,
but `np.array(industry_anomalies)` is then added **positionally** to the
row-ordered vote arrays.  The external `IsolationForest(...).fit_predict` on
the masked sub-matrix is modelled as an oracle from the masked row indices to
the boolean predictions. -/

/-- `pandas.Series.unique()`: distinct values in order of first appearance. -/
def pdUnique (l : List String) : List String :=
  l.foldl (fun acc x => if x ∈ acc then acc else acc ++ [x]) []

/-- The row indices selected by the boolean mask `df["industry"] == ind`. -/
def maskIdx (inds : List String) (ind : String) : List ℕ :=
  (List.range inds.length).filter (fun k => inds.getD k "" = ind)

/-- The `industry_anomalies` list as built by the loop of lines 380-391:
per unique industry in first-appearance order, `[False] * count` when the
industry has fewer than 3 facilities, otherwise the detector's predictions
for the masked rows. -/
def industry_anomalies (inds : List String) (oracle : List ℕ → List Bool) : List Bool :=
  (pdUnique inds).foldl (fun acc ind =>
    let idxs := maskIdx inds ind
    if idxs.length < 3 then acc ++ List.replicate idxs.length false
    else if 3 ≤ idxs.length then acc ++ oracle idxs
    else acc) []

/-- The value signal 2 contributes to the vote sum of the facility at row
`i`: `np.array(industry_anomalies)` is consumed positionally (line 406). -/
def industry_signal_at (inds : List String) (oracle : List ℕ → List Bool) (i : ℕ) : Bool :=
  (industry_anomalies inds oracle).getD i false

/-- A possible output of the per-industry `IsolationForest` detector: within
the fitted group, exactly the sample that is row 2 of the data frame is
predicted an outlier (a 15%-contamination forest on 3 samples may flag one
of them). -/
def demoPredictor : List ℕ → List Bool :=
  fun idxs => idxs.map (fun k => decide (k = 2))

/-- **C1 is violated by the code (code bug).**  With facility industries
`[X, Y, X, X]` in row order, the sole facility of industry `Y` (row 1,
category size 1 < 3) nevertheless receives signal value `true`: the loop
appends industry X's three predictions first, so the prediction for row 2
lands at position 1.  The claim (and the code's own skip of small
industries) requires this facility's signal to be 0. -/
theorem industry_signal_small_category_flagged :
    ["X", "Y", "X", "X"].getD 1 "" = "Y" ∧
    ["X", "Y", "X", "X"].count "Y" < 3 ∧
    industry_signal_at ["X", "Y", "X", "X"] demoPredictor 1 = true := by
  decide

/-! ## C2: the final min-max rescale (`run_risk_model`, lines 332-336)

The rescale acts on the population of pre-rescale risk values of the current
run (whatever the upstream scaling produced), so it is modelled as a function
of that list of values:
`((x - min) / (max - min + 1e-9) * 100).round(2)` per facility. -/

/-- `pandas.Series.min()` on the risk column (0 for the empty list, which the
claims never touch). -/
def listMin : List ℚ → ℚ
  | [] => 0
  | x :: t => t.foldl min x

/-- `pandas.Series.max()` on the risk column. -/
def listMax : List ℚ → ℚ
  | [] => 0
  | x :: t => t.foldl max x

/-- The final rescale of lines 332-336. -/
def rescale (xs : List ℚ) : List ℚ :=
  xs.map (fun x =>
    round2 ((x - listMin xs) / (listMax xs - listMin xs + 1 / 1000000000) * 100))

lemma foldl_min_le (t : List ℚ) :
    ∀ a : ℚ, t.foldl min a ≤ a ∧ ∀ x ∈ t, t.foldl min a ≤ x := by
  induction t with
  | nil => simp
  | cons y s ih =>
    intro a
    obtain ⟨h1, h2⟩ := ih (min a y)
    refine ⟨h1.trans (min_le_left a y), ?_⟩
    intro x hx
    rcases List.mem_cons.mp hx with h | h
    · exact h ▸ h1.trans (min_le_right a y)
    · exact h2 x h

lemma le_foldl_max (t : List ℚ) :
    ∀ a : ℚ, a ≤ t.foldl max a ∧ ∀ x ∈ t, x ≤ t.foldl max a := by
  induction t with
  | nil => simp
  | cons y s ih =>
    intro a
    obtain ⟨h1, h2⟩ := ih (max a y)
    refine ⟨(le_max_left a y).trans h1, ?_⟩
    intro x hx
    rcases List.mem_cons.mp hx with h | h
    · exact h ▸ (le_max_right a y).trans h1
    · exact h2 x h

lemma foldl_min_mem (t : List ℚ) : ∀ a : ℚ, t.foldl min a ∈ a :: t := by
  induction t with
  | nil => simp
  | cons y s ih =>
    intro a
    rcases List.mem_cons.mp (ih (min a y)) with h | h
    · rcases min_choice a y with hc | hc
      · rw [List.foldl_cons, h, hc]; exact List.mem_cons_self a _
      · rw [List.foldl_cons, h, hc]; simp
    · simp [h]

lemma foldl_max_mem (t : List ℚ) : ∀ a : ℚ, t.foldl max a ∈ a :: t := by
  induction t with
  | nil => simp
  | cons y s ih =>
    intro a
    rcases List.mem_cons.mp (ih (max a y)) with h | h
    · rcases max_choice a y with hc | hc
      · rw [List.foldl_cons, h, hc]; exact List.mem_cons_self a _
      · rw [List.foldl_cons, h, hc]; simp
    · simp [h]

lemma listMin_le (xs : List ℚ) : ∀ x ∈ xs, listMin xs ≤ x := by
  match xs with
  | [] => simp
  | y :: t =>
    intro x hx
    rcases List.mem_cons.mp hx with h | h
    · exact h ▸ (foldl_min_le t y).1
    · exact (foldl_min_le t y).2 x h

lemma le_listMax (xs : List ℚ) : ∀ x ∈ xs, x ≤ listMax xs := by
  match xs with
  | [] => simp
  | y :: t =>
    intro x hx
    rcases List.mem_cons.mp hx with h | h
    · exact h ▸ (le_foldl_max t y).1
    · exact (le_foldl_max t y).2 x h

lemma listMin_mem (xs : List ℚ) (h : xs ≠ []) : listMin xs ∈ xs := by
  match xs with
  | [] => exact absurd rfl h
  | y :: t => exact foldl_min_mem t y

lemma listMax_mem (xs : List ℚ) (h : xs ≠ []) : listMax xs ∈ xs := by
  match xs with
  | [] => exact absurd rfl h
  | y :: t => exact foldl_max_mem t y

lemma score100_iff (m M x : ℚ) (hmx : m ≤ x) (hxM : x ≤ M) :
    round2 ((x - m) / (M - m + 1 / 1000000000) * 100) = 100 ↔
      m + 99995 / 100000 * (M - m + 1 / 1000000000) ≤ x := by
  have hd : 0 < M - m + 1 / 1000000000 := by linarith
  unfold round2
  rw [div_eq_iff (by norm_num : (100 : ℚ) ≠ 0),
    show (100 : ℚ) * 100 = ((10000 : ℤ) : ℚ) by norm_num, Int.cast_inj,
    round_eq, Int.floor_eq_iff, show ((x - m) / (M - m + 1 / 1000000000) * 100 * 100)
      = (x - m) * 10000 / (M - m + 1 / 1000000000) by ring]
  constructor
  · rintro ⟨h1, _⟩
    have h3 : ((10000 : ℤ) : ℚ) - 1 / 2 ≤ (x - m) * 10000 / (M - m + 1 / 1000000000) := by
      linarith
    have h4 := (le_div_iff hd).mp h3
    push_cast at h4
    linarith
  · intro h
    have h1 : (9999 + (1 : ℚ) / 2) * (M - m + 1 / 1000000000) ≤ (x - m) * 10000 := by
      nlinarith
    have h2 : (x - m) * 10000 < 10000 * (M - m + 1 / 1000000000) := by
      nlinarith
    refine ⟨?_, ?_⟩
    · have := (le_div_iff hd).mpr h1
      push_cast
      linarith
    · have := (div_lt_iff hd).mpr h2
      push_cast
      linarith

lemma score0_iff (m M x : ℚ) (hmx : m ≤ x) (hxM : x ≤ M) :
    round2 ((x - m) / (M - m + 1 / 1000000000) * 100) = 0 ↔
      x < m + 5 / 100000 * (M - m + 1 / 1000000000) := by
  have hd : 0 < M - m + 1 / 1000000000 := by linarith
  unfold round2
  rw [div_eq_iff (by norm_num : (100 : ℚ) ≠ 0),
    show (0 : ℚ) * 100 = ((0 : ℤ) : ℚ) by norm_num, Int.cast_inj,
    round_eq, Int.floor_eq_iff, show ((x - m) / (M - m + 1 / 1000000000) * 100 * 100)
      = (x - m) * 10000 / (M - m + 1 / 1000000000) by ring]
  constructor
  · rintro ⟨_, h2⟩
    have h3 : (x - m) * 10000 / (M - m + 1 / 1000000000) < 1 / 2 := by
      push_cast at h2
      linarith
    have h4 := (div_lt_iff hd).mp h3
    linarith
  · intro h
    have h1 : (x - m) * 10000 < 1 / 2 * (M - m + 1 / 1000000000) := by nlinarith
    have h2 : (0 : ℚ) ≤ (x - m) * 10000 / (M - m + 1 / 1000000000) :=
      div_nonneg (by linarith) (le_of_lt hd)
    refine ⟨?_, ?_⟩
    · push_cast
      linarith
    · have := (div_lt_iff hd).mpr h1
      push_cast
      linarith

lemma rescale_bounds (xs : List ℚ) (_hne : xs ≠ []) :
    ∀ y ∈ rescale xs, 0 ≤ y ∧ y ≤ 100 := by
  intro y hy
  rw [rescale] at hy
  obtain ⟨x, hx, rfl⟩ := List.mem_map.mp hy
  have hmx := listMin_le xs x hx
  have hxM := le_listMax xs x hx
  have hd : 0 < listMax xs - listMin xs + 1 / 1000000000 := by linarith
  set v : ℚ := (x - listMin xs) / (listMax xs - listMin xs + 1 / 1000000000) * 100 with hv
  have hv0 : 0 ≤ v := by
    apply mul_nonneg _ (by norm_num)
    exact div_nonneg (by linarith) (le_of_lt hd)
  have hv100 : v < 100 := by
    rw [hv]
    have : (x - listMin xs) / (listMax xs - listMin xs + 1 / 1000000000) < 1 :=
      (div_lt_one hd).mpr (by linarith)
    nlinarith
  have hfl : (0 : ℤ) ≤ round (v * 100) ∧ round (v * 100) ≤ 10000 := by
    rw [round_eq]
    constructor
    · exact Int.le_floor.mpr (by push_cast; linarith)
    · have : (⌊v * 100 + 1 / 2⌋ : ℤ) < 10001 := by
        rw [Int.floor_lt]
        push_cast
        linarith
      omega
  unfold round2
  constructor
  · apply div_nonneg _ (by norm_num)
    exact_mod_cast hfl.1
  · rw [div_le_iff (by norm_num : (0:ℚ) < 100)]
    calc (round (v * 100) : ℚ) ≤ 10000 := by exact_mod_cast hfl.2
    _ = 100 * 100 := by norm_num

lemma round2_eq (x : ℚ) (n : ℤ) (h1 : (n : ℚ) ≤ x * 100 + 1 / 2)
    (h2 : x * 100 + 1 / 2 < n + 1) : round2 x = (n : ℚ) / 100 := by
  rw [round2, round_eq, Int.floor_eq_iff.mpr ⟨h1, h2⟩]

/-- **C2 as stated is violated** (counterexample): with pre-rescale risk
values `[0, 1e-9]` (two facilities, pairwise distinct), the `+1e-9` guard
makes the maximal facility's score `round2(100·1e-9/2e-9) = 50`, so no
facility scores 100 and the "exactly one facility equals 100" part fails. -/
theorem rescale_unique_extremes_counterexample :
    ¬ (∀ xs : List ℚ, 2 ≤ xs.length → xs.Nodup →
        (rescale xs).count 100 = 1 ∧ (rescale xs).count 0 = 1) := by
  intro h
  have hx := h [0, 1 / 1000000000] (by norm_num) (by norm_num)
  have he : rescale [0, 1 / 1000000000] = [0, 50] := by
    have hmin1 : listMin [0, 1 / 1000000000] = 0 := by norm_num [listMin, min_def]
    have hmax1 : listMax [0, 1 / 1000000000] = 1 / 1000000000 := by
      norm_num [listMax, max_def]
    rw [rescale]
    simp only [hmin1, hmax1, List.map_cons, List.map_nil]
    rw [round2_eq _ 0 (by norm_num) (by norm_num),
      round2_eq _ 5000 (by norm_num) (by norm_num)]
    norm_num
  rw [he] at hx
  have : ([0, 50] : List ℚ).count 100 = 0 := by decide
  omega

/-- **C2, amended.**  (i) For every non-empty population every rescaled score
lies in [0, 100].  (ii) For a population of ≥ 2 pairwise-distinct values,
exactly one facility scores 100 and exactly one scores 0 **provided** the
extremes are separated from the rest of the population relative to the
`+1e-9`-guarded denominator `d = max − min + 1e-9`: the max is at least
`min + 0.99995·d`, every non-maximal value is below `min + 0.99995·d`, and
every non-minimal value is at least `min + 0.00005·d`.  (Without these
margins the rounding makes the original claim fail, see the
counterexample.) -/
theorem rescale_bounds_and_unique_extremes :
    (∀ xs : List ℚ, xs ≠ [] → ∀ y ∈ rescale xs, 0 ≤ y ∧ y ≤ 100) ∧
    (∀ xs : List ℚ, 2 ≤ xs.length → xs.Nodup →
      listMin xs + 99995 / 100000 * (listMax xs - listMin xs + 1 / 1000000000) ≤ listMax xs →
      (∀ x ∈ xs, x ≠ listMax xs →
        x < listMin xs + 99995 / 100000 * (listMax xs - listMin xs + 1 / 1000000000)) →
      (∀ x ∈ xs, x ≠ listMin xs →
        listMin xs + 5 / 100000 * (listMax xs - listMin xs + 1 / 1000000000) ≤ x) →
      (rescale xs).count 100 = 1 ∧ (rescale xs).count 0 = 1) := by
  refine ⟨rescale_bounds, ?_⟩
  intro xs hlen hnodup hmax hbelow habove
  have hne : xs ≠ [] := by
    intro h
    rw [h] at hlen
    simp at hlen
  have hMmem := listMax_mem xs hne
  have hmmem := listMin_mem xs hne
  constructor
  · rw [rescale, List.count_eq_countP, List.countP_map]
    have hcong : List.countP
        ((fun y => y == (100 : ℚ)) ∘ (fun x =>
          round2 ((x - listMin xs) / (listMax xs - listMin xs + 1 / 1000000000) * 100))) xs
        = List.countP (fun x => x == listMax xs) xs := by
      apply List.countP_congr
      intro x hx
      have hmx := listMin_le xs x hx
      have hxM := le_listMax xs x hx
      simp only [Function.comp_apply, beq_iff_eq]
      rw [score100_iff (listMin xs) (listMax xs) x hmx hxM]
      constructor
      · intro hth
        by_contra hne'
        exact absurd hth (not_le.mpr (hbelow x hx hne'))
      · intro hxeq
        rw [hxeq]
        exact hmax
    rw [hcong, ← List.count_eq_countP]
    exact List.count_eq_one_of_mem hnodup hMmem
  · rw [rescale, List.count_eq_countP, List.countP_map]
    have hcong : List.countP
        ((fun y => y == (0 : ℚ)) ∘ (fun x =>
          round2 ((x - listMin xs) / (listMax xs - listMin xs + 1 / 1000000000) * 100))) xs
        = List.countP (fun x => x == listMin xs) xs := by
      apply List.countP_congr
      intro x hx
      have hmx := listMin_le xs x hx
      have hxM := le_listMax xs x hx
      simp only [Function.comp_apply, beq_iff_eq]
      rw [score0_iff (listMin xs) (listMax xs) x hmx hxM]
      constructor
      · intro hth
        by_contra hne'
        exact absurd hth (not_lt.mpr (habove x hx hne'))
      · intro hxeq
        rw [hxeq]
        have hd : 0 < listMax xs - listMin xs + 1 / 1000000000 := by
          have := listMin_le xs (listMax xs) hMmem
          linarith
        linarith
    rw [hcong, ← List.count_eq_countP]
    exact List.count_eq_one_of_mem hnodup hmmem

/-- Witness for C2 (amended) at the population `[0, 1]`: the separation
hypotheses hold and the rescaled scores contain exactly one 100 and exactly
one 0 and lie in [0, 100]. -/
theorem rescale_bounds_and_unique_extremes_witness :
    (rescale [0, 1] : List ℚ).count 100 = 1 ∧ (rescale [0, 1] : List ℚ).count 0 = 1 ∧
    (∀ y ∈ rescale ([0, 1] : List ℚ), 0 ≤ y ∧ y ≤ 100) := by
  obtain ⟨hb, hc⟩ := rescale_bounds_and_unique_extremes
  have hmin : listMin [0, 1] = (0 : ℚ) := by norm_num [listMin, min_def]
  have hmax : listMax [0, 1] = (1 : ℚ) := by norm_num [listMax, max_def]
  have h2 := hc [0, 1] (by norm_num) (by norm_num)
    (by rw [hmin, hmax]; norm_num)
    (by
      rw [hmin, hmax]
      intro x hx hne'
      rcases List.mem_cons.mp hx with h | h
      · rw [h]; norm_num
      · simp at h
        exact absurd h hne')
    (by
      rw [hmin, hmax]
      intro x hx hne'
      rcases List.mem_cons.mp hx with h | h
      · exact absurd h hne'
      · simp at h
        rw [h]; norm_num)
  exact ⟨h2.1, h2.2, hb [0, 1] (by simp)⟩

/-! ## The proximity model (`haversine_distance`, `SENSITIVE_LOCATIONS`,
`calculate_proximity_risk`, lines 111-155)

This part of the pipeline uses transcendental functions, so it is modelled
over `ℝ` (`np.radians x = x·π/180`). -/

/-- `haversine_distance` (lines 128-136): great-circle distance in km with
Earth radius 6371. -/
noncomputable def haversine_distance (lat1 lon1 lat2 lon2 : ℝ) : ℝ :=
  let lat1r := lat1 * Real.pi / 180
  let lon1r := lon1 * Real.pi / 180
  let lat2r := lat2 * Real.pi / 180
  let lon2r := lon2 * Real.pi / 180
  let dlat := lat2r - lat1r
  let dlon := lon2r - lon1r
  let a := Real.sin (dlat / 2) ^ 2 +
    Real.cos lat1r * Real.cos lat2r * Real.sin (dlon / 2) ^ 2
  let c := 2 * Real.arcsin (Real.sqrt a)
  6371 * c

/-- One entry of `SENSITIVE_LOCATIONS`. -/
structure SensitiveLocation where
  lat : ℝ
  lon : ℝ
  kind : String
  name : String
  weight : ℝ

/-- `SENSITIVE_LOCATIONS` (lines 111-126). -/
noncomputable def SENSITIVE_LOCATIONS : List SensitiveLocation := [
  ⟨43.6591, -79.3879, "hospital", "Toronto General Hospital", 2.5⟩,
  ⟨43.6566, -79.3900, "hospital", "SickKids", 3.0⟩,
  ⟨43.7315, -79.4558, "hospital", "Sunnybrook", 2.5⟩,
  ⟨43.6629, -79.3957, "school", "University of Toronto", 2.2⟩,
  ⟨43.7735, -79.5019, "school", "York University", 2.2⟩,
  ⟨43.7843, -79.1864, "school", "UofT Scarborough", 2.0⟩,
  ⟨43.6426, -79.3871, "residential", "Downtown Core", 1.8⟩,
  ⟨43.7615, -79.4111, "residential", "North York Centre", 1.5⟩,
  ⟨43.7731, -79.2578, "residential", "Scarborough Town", 1.5⟩]

/-- The distance-decay `risk_contribution` of lines 145-151. -/
noncomputable def risk_contribution (w d : ℝ) : ℝ :=
  if d < 1.0 then w * (1.0 - d)
  else if d < 5.0 then w * 0.3 * (1.0 - (d - 1.0) / 4.0)
  else 0

/-- `calculate_proximity_risk` (lines 138-155): running maximum over the
sensitive locations, starting from the baseline 1.0, of
`1.0 + risk_contribution * 0.4`. -/
noncomputable def calculate_proximity_risk (lat lon : ℝ) : ℝ :=
  SENSITIVE_LOCATIONS.foldl
    (fun max_risk loc =>
      max max_risk
        (1.0 + risk_contribution loc.weight (haversine_distance lat lon loc.lat loc.lon) * 0.4))
    1.0

lemma le_foldl_max_real {α : Type} (f : α → ℝ) :
    ∀ (l : List α) (a : ℝ), a ≤ l.foldl (fun m x => max m (f x)) a := by
  intro l
  induction l with
  | nil => intro a; exact le_refl a
  | cons y s ih =>
    intro a
    exact (le_max_left a (f y)).trans (ih (max a (f y)))

lemma claim_use_weight_nonneg (r : Row) : 0 ≤ claim_use_weight r := by
  unfold claim_use_weight
  split_ifs <;> norm_num

lemma rowToxicity_nonneg (name : String) : 0 ≤ rowToxicity name := by
  have := le_toxicityFrom CHEMICAL_TOXICITY (normalizeName name)
  have h30 : (0 : ℚ) ≤ 30.0 := by norm_num
  exact h30.trans this

lemma claim_row_exposure_nonneg (r : Row) : 0 ≤ claim_row_exposure r := by
  have htox : (0 : ℚ) ≤ rowToxicity r.chemical_name / 100.0 :=
    div_nonneg (rowToxicity_nonneg r.chemical_name) (by norm_num)
  have huw := claim_use_weight_nonneg r
  have hterm : ∀ q w : ℚ, 0 ≤ w →
      0 ≤ (if q > 0 then q * (rowToxicity r.chemical_name / 100.0) * w * claim_use_weight r
        else 0) := by
    intro q w hw
    split_ifs with hq
    · exact mul_nonneg (mul_nonneg (mul_nonneg hq.le htox) hw) huw
    · exact le_refl 0
  unfold claim_row_exposure
  exact add_nonneg (add_nonneg (add_nonneg (add_nonneg
    (hterm _ _ (by norm_num)) (hterm _ _ (by norm_num))) (hterm _ _ (by norm_num)))
    (hterm _ _ (by norm_num))) (hterm _ _ (by norm_num))

/-- **C7.** Toxicity-weighted exposure is non-negative for every facility
group with non-negative release quantities, and the proximity multiplier is
at least 1.0 for every latitude/longitude. -/
theorem exposure_nonneg_and_proximity_ge_one :
    (∀ g : List Row,
      (∀ r ∈ g, 0 ≤ r.rel_air ∧ 0 ≤ r.rel_water ∧ 0 ≤ r.rel_land ∧
        0 ≤ r.rel_disposal ∧ 0 ≤ r.rel_recycling) →
      0 ≤ (aggregate g).toxicity_weighted_exposure) ∧
    (∀ lat lon : ℝ, 1 ≤ calculate_proximity_risk lat lon) := by
  constructor
  · intro g _
    rw [exposure_eq_claim_formula]
    unfold claim_exposure
    apply List.sum_nonneg
    intro y hy
    obtain ⟨r, _, rfl⟩ := List.mem_map.mp hy
    exact claim_row_exposure_nonneg r
  · intro lat lon
    have h := le_foldl_max_real
      (fun loc : SensitiveLocation =>
        1.0 + risk_contribution loc.weight (haversine_distance lat lon loc.lat loc.lon) * 0.4)
      SENSITIVE_LOCATIONS 1.0
    exact le_trans (by norm_num) h

/-- Witness for C7: a one-row facility (10 kg of acetone to air) and the
coordinates of downtown Toronto. -/
theorem exposure_nonneg_and_proximity_ge_one_witness :
    0 ≤ (aggregate [⟨"acetone", 10, 0, 0, 0, 0, 1, 0, 0⟩]).toxicity_weighted_exposure ∧
    1 ≤ calculate_proximity_risk 43.65 (-79.38) := by
  obtain ⟨h1, h2⟩ := exposure_nonneg_and_proximity_ge_one
  refine ⟨h1 [⟨"acetone", 10, 0, 0, 0, 0, 1, 0, 0⟩] ?_, h2 43.65 (-79.38)⟩
  intro r hr
  simp only [List.mem_singleton] at hr
  subst hr
  norm_num

/-! ## C6: the proximity multiplier at a sensitive location

Auxiliary facts about `haversine_distance` and `risk_contribution`, including
concrete lower bounds on the pairwise distances between the configured
sensitive locations (needed because the multiplier takes a maximum over all
locations). -/

lemma haversine_eq (lat1 lon1 lat2 lon2 : ℝ) :
    haversine_distance lat1 lon1 lat2 lon2 =
      6371 * (2 * Real.arcsin (Real.sqrt (
        Real.sin ((lat2 * Real.pi / 180 - lat1 * Real.pi / 180) / 2) ^ 2 +
        Real.cos (lat1 * Real.pi / 180) * Real.cos (lat2 * Real.pi / 180) *
          Real.sin ((lon2 * Real.pi / 180 - lon1 * Real.pi / 180) / 2) ^ 2))) := rfl

lemma haversine_self (lat lon : ℝ) : haversine_distance lat lon lat lon = 0 := by
  rw [haversine_eq]
  simp

lemma haversine_nonneg (lat1 lon1 lat2 lon2 : ℝ) :
    0 ≤ haversine_distance lat1 lon1 lat2 lon2 := by
  rw [haversine_eq]
  have h := Real.arcsin_nonneg.mpr (Real.sqrt_nonneg
    (Real.sin ((lat2 * Real.pi / 180 - lat1 * Real.pi / 180) / 2) ^ 2 +
      Real.cos (lat1 * Real.pi / 180) * Real.cos (lat2 * Real.pi / 180) *
        Real.sin ((lon2 * Real.pi / 180 - lon1 * Real.pi / 180) / 2) ^ 2))
  linarith

lemma haversine_comm (lat1 lon1 lat2 lon2 : ℝ) :
    haversine_distance lat1 lon1 lat2 lon2 = haversine_distance lat2 lon2 lat1 lon1 := by
  rw [haversine_eq, haversine_eq]
  have hsin : ∀ x y : ℝ, Real.sin ((x - y) / 2) ^ 2 = Real.sin ((y - x) / 2) ^ 2 := by
    intro x y
    rw [show (x - y) / 2 = -((y - x) / 2) by ring, Real.sin_neg]
    ring
  rw [hsin (lat2 * Real.pi / 180) (lat1 * Real.pi / 180),
    hsin (lon2 * Real.pi / 180) (lon1 * Real.pi / 180),
    mul_comm (Real.cos (lat1 * Real.pi / 180)) (Real.cos (lat2 * Real.pi / 180))]

lemma risk_contribution_self (w : ℝ) : risk_contribution w 0 = w := by
  unfold risk_contribution
  rw [if_pos (by norm_num)]
  ring

lemma risk_contribution_nonneg (w d : ℝ) (hw : 0 ≤ w) (_hd : 0 ≤ d) :
    0 ≤ risk_contribution w d := by
  unfold risk_contribution
  split_ifs with h1 h2
  · have : (0:ℝ) ≤ 1.0 - d := by norm_num at h1 ⊢; linarith
    exact mul_nonneg hw this
  · have : (0:ℝ) ≤ 1.0 - (d - 1.0) / 4.0 := by norm_num at h2 ⊢; linarith
    exact mul_nonneg (mul_nonneg hw (by norm_num)) this
  · exact le_refl 0

lemma risk_contribution_le_of_lb (w d lb : ℝ) (hw : 0 ≤ w) (_hlb : 0 ≤ lb)
    (hlb7 : lb ≤ 0.7) (hd : lb ≤ d) :
    risk_contribution w d ≤ w * (1 - lb) := by
  unfold risk_contribution
  split_ifs with h1 h2
  · have hd1 : d < 1 := by norm_num at h1; exact h1
    nlinarith
  · have hge : (1:ℝ) ≤ d := by norm_num at h1; linarith
    have hlt : d < 5 := by norm_num at h2; exact h2
    nlinarith
  · nlinarith

lemma le_arcsin (y : ℝ) (h0 : 0 ≤ y) (h1 : y ≤ 1) : y ≤ Real.arcsin y := by
  rcases eq_or_lt_of_le h0 with h | h
  · rw [← h]
    simp
  · have harc : 0 < Real.arcsin y := Real.arcsin_pos.mpr h
    have hs := Real.sin_lt harc
    rw [Real.sin_arcsin (by linarith) h1] at hs
    exact hs.le

lemma sin_scaled_lb (Δ lb : ℝ) (hΔ : 0 < Δ) (hΔ1 : Δ ≤ 1)
    (hlb : lb ≤ Δ * 3.141592 / 360 - (Δ * 3.141593 / 360) ^ 3 / 4) :
    lb ≤ Real.sin (Δ * Real.pi / 360) := by
  have hpi1 : (3.141592 : ℝ) < Real.pi := Real.pi_gt_d6
  have hpi2 : Real.pi < 3.141593 := Real.pi_lt_d6
  set x := Δ * Real.pi / 360 with hx
  have hx0 : 0 < x := div_pos (mul_pos hΔ Real.pi_pos) (by norm_num)
  have hx1 : x ≤ 1 := by
    rw [hx]
    nlinarith
  have hsin := Real.sin_gt_sub_cube hx0 hx1
  have hxlo : Δ * 3.141592 / 360 ≤ x := by
    rw [hx]
    nlinarith
  have hxhi : x ≤ Δ * 3.141593 / 360 := by
    rw [hx]
    nlinarith
  have hcube : x ^ 3 ≤ (Δ * 3.141593 / 360) ^ 3 :=
    pow_le_pow_left hx0.le hxhi 3
  linarith

lemma haversine_ge_lat (lat1 lon1 lat2 lon2 : ℝ)
    (h1 : 0 ≤ lat1) (h3 : lat2 ≤ 89) (hΔ : 0 < lat2 - lat1) (hΔ1 : lat2 - lat1 ≤ 1)
    (hlon : |lon2 - lon1| ≤ 1) :
    6371 * 2 * Real.sin ((lat2 - lat1) * Real.pi / 360) ≤
      haversine_distance lat1 lon1 lat2 lon2 := by
  have hpi1 : (3.141592 : ℝ) < Real.pi := Real.pi_gt_d6
  have hpi2 : Real.pi < 3.141593 := Real.pi_lt_d6
  have h2 : 0 ≤ lat2 := by linarith
  have h4 : lat1 ≤ 89 := by linarith
  rw [haversine_eq]
  rw [show (lat2 * Real.pi / 180 - lat1 * Real.pi / 180) / 2
    = (lat2 - lat1) * Real.pi / 360 by ring]
  rw [show (lon2 * Real.pi / 180 - lon1 * Real.pi / 180) / 2
    = (lon2 - lon1) * Real.pi / 360 by ring]
  set u := (lat2 - lat1) * Real.pi / 360 with hu
  set v := (lon2 - lon1) * Real.pi / 360 with hv
  have hu0 : 0 < u := div_pos (mul_pos hΔ Real.pi_pos) (by norm_num)
  have hu1 : u ≤ 1 / 100 := by
    rw [hu]
    nlinarith
  have hv1 : |v| ≤ 1 / 100 := by
    rw [hv, abs_div, abs_mul, abs_of_pos Real.pi_pos, abs_of_pos (by norm_num : (0:ℝ) < 360)]
    rw [div_le_iff (by norm_num : (0:ℝ) < 360)]
    nlinarith [abs_nonneg (lon2 - lon1)]
  have hcos1 : 0 ≤ Real.cos (lat1 * Real.pi / 180) := by
    apply Real.cos_nonneg_of_mem_Icc
    constructor
    · have := Real.pi_pos
      have hl : 0 ≤ lat1 * Real.pi / 180 := by positivity
      linarith
    · have : lat1 * Real.pi / 180 ≤ 89 * Real.pi / 180 := by nlinarith
      nlinarith [Real.pi_pos]
  have hcos2 : 0 ≤ Real.cos (lat2 * Real.pi / 180) := by
    apply Real.cos_nonneg_of_mem_Icc
    constructor
    · have := Real.pi_pos
      have hl : 0 ≤ lat2 * Real.pi / 180 := by positivity
      linarith
    · have : lat2 * Real.pi / 180 ≤ 89 * Real.pi / 180 := by nlinarith
      nlinarith [Real.pi_pos]
  set a := Real.sin u ^ 2 +
    Real.cos (lat1 * Real.pi / 180) * Real.cos (lat2 * Real.pi / 180) * Real.sin v ^ 2 with ha
  have ha0 : Real.sin u ^ 2 ≤ a := by
    have := mul_nonneg (mul_nonneg hcos1 hcos2) (sq_nonneg (Real.sin v))
    rw [ha]
    linarith
  have ha1 : a ≤ 1 := by
    have hcc : Real.cos (lat1 * Real.pi / 180) * Real.cos (lat2 * Real.pi / 180) ≤ 1 :=
      mul_le_one (Real.cos_le_one _) hcos2 (Real.cos_le_one _)
    have hsv : Real.sin v ^ 2 ≤ v ^ 2 := Real.sin_sq_le_sq
    have hsu : Real.sin u ^ 2 ≤ u ^ 2 := Real.sin_sq_le_sq
    have hv2 : v ^ 2 ≤ (1 / 100) ^ 2 := by
      rw [← sq_abs]
      exact pow_le_pow_left (abs_nonneg v) hv1 2
    have hu2 : u ^ 2 ≤ (1 / 100) ^ 2 := pow_le_pow_left hu0.le hu1 2
    rw [ha]
    nlinarith [sq_nonneg (Real.sin v)]
  have hsu0 : 0 ≤ Real.sin u :=
    Real.sin_nonneg_of_nonneg_of_le_pi hu0.le (by linarith)
  have hsqa : Real.sin u ≤ Real.sqrt a := by
    rw [show Real.sin u = Real.sqrt (Real.sin u ^ 2) from (Real.sqrt_sq hsu0).symm]
    exact Real.sqrt_le_sqrt ha0
  have hsqa1 : Real.sqrt a ≤ 1 := by
    calc Real.sqrt a ≤ Real.sqrt 1 := Real.sqrt_le_sqrt ha1
    _ = 1 := Real.sqrt_one
  have harc : Real.sqrt a ≤ Real.arcsin (Real.sqrt a) :=
    le_arcsin _ (Real.sqrt_nonneg a) hsqa1
  linarith

lemma haversine_ge_lon (lat1 lon1 lat2 lon2 : ℝ)
    (h1 : 43 ≤ lat1) (h1' : lat1 ≤ 44) (h2 : 43 ≤ lat2) (h2' : lat2 ≤ 44)
    (hΔ : 0 < lon2 - lon1) (hΔ1 : lon2 - lon1 ≤ 1) :
    6371 * 2 * (7 / 10 * Real.sin ((lon2 - lon1) * Real.pi / 360)) ≤
      haversine_distance lat1 lon1 lat2 lon2 := by
  have hpi1 : (3.141592 : ℝ) < Real.pi := Real.pi_gt_d6
  have hpi2 : Real.pi < 3.141593 := Real.pi_lt_d6
  rw [haversine_eq]
  rw [show (lat2 * Real.pi / 180 - lat1 * Real.pi / 180) / 2
    = (lat2 - lat1) * Real.pi / 360 by ring]
  rw [show (lon2 * Real.pi / 180 - lon1 * Real.pi / 180) / 2
    = (lon2 - lon1) * Real.pi / 360 by ring]
  set u := (lat2 - lat1) * Real.pi / 360 with hu
  set v := (lon2 - lon1) * Real.pi / 360 with hv
  have hv0 : 0 < v := div_pos (mul_pos hΔ Real.pi_pos) (by norm_num)
  have hv1 : v ≤ 1 / 100 := by
    have hp : (lon2 - lon1) * Real.pi ≤ 1 * 3.141593 :=
      mul_le_mul hΔ1 hpi2.le Real.pi_pos.le (by norm_num)
    rw [hv]
    rw [div_le_iff (by norm_num : (0:ℝ) < 360)]
    linarith
  have hu1 : |u| ≤ 1 / 100 := by
    rw [hu, abs_div, abs_mul, abs_of_pos Real.pi_pos, abs_of_pos (by norm_num : (0:ℝ) < 360)]
    rw [div_le_iff (by norm_num : (0:ℝ) < 360)]
    have habs : |lat2 - lat1| ≤ 1 := by
      rw [abs_le]
      constructor <;> linarith
    have hp : |lat2 - lat1| * Real.pi ≤ 1 * 3.141593 :=
      mul_le_mul habs hpi2.le Real.pi_pos.le (by norm_num)
    linarith
  have hcos_bound : ∀ t : ℝ, 43 ≤ t → t ≤ 44 → 7 / 10 ≤ Real.cos (t * Real.pi / 180) := by
    intro t ht ht'
    have hb := Real.one_sub_sq_div_two_le_cos (x := t * Real.pi / 180)
    have hx0 : 0 ≤ t * Real.pi / 180 := by positivity
    have hx : t * Real.pi / 180 ≤ 44 * 3.141593 / 180 := by
      have hp : t * Real.pi ≤ 44 * 3.141593 :=
        mul_le_mul ht' hpi2.le Real.pi_pos.le (by norm_num)
      rw [div_le_div_iff (by norm_num) (by norm_num)]
      linarith
    have hx2 : (t * Real.pi / 180) ^ 2 ≤ (44 * 3.141593 / 180) ^ 2 :=
      pow_le_pow_left hx0 hx 2
    have hnum : (7 : ℝ) / 10 ≤ 1 - (44 * 3.141593 / 180) ^ 2 / 2 := by norm_num
    linarith
  have hcos1 := hcos_bound lat1 h1 h1'
  have hcos2 := hcos_bound lat2 h2 h2'
  set a := Real.sin u ^ 2 +
    Real.cos (lat1 * Real.pi / 180) * Real.cos (lat2 * Real.pi / 180) * Real.sin v ^ 2 with ha
  have hsv0 : 0 ≤ Real.sin v :=
    Real.sin_nonneg_of_nonneg_of_le_pi hv0.le (by linarith)
  have hcc49 : (49 : ℝ) / 100 ≤
      Real.cos (lat1 * Real.pi / 180) * Real.cos (lat2 * Real.pi / 180) := by
    nlinarith
  have ha0 : (7 / 10 * Real.sin v) ^ 2 ≤ a := by
    have hsq : (7 / 10 * Real.sin v) ^ 2 = 49 / 100 * Real.sin v ^ 2 := by ring
    have hstep : (49 : ℝ) / 100 * Real.sin v ^ 2 ≤
        Real.cos (lat1 * Real.pi / 180) * Real.cos (lat2 * Real.pi / 180) * Real.sin v ^ 2 :=
      mul_le_mul_of_nonneg_right hcc49 (sq_nonneg (Real.sin v))
    rw [ha, hsq]
    have := sq_nonneg (Real.sin u)
    linarith
  have ha1 : a ≤ 1 := by
    have hcc : Real.cos (lat1 * Real.pi / 180) * Real.cos (lat2 * Real.pi / 180) ≤ 1 :=
      mul_le_one (Real.cos_le_one _) (by linarith) (Real.cos_le_one _)
    have hccs : Real.cos (lat1 * Real.pi / 180) * Real.cos (lat2 * Real.pi / 180)
        * Real.sin v ^ 2 ≤ Real.sin v ^ 2 :=
      mul_le_of_le_one_left (sq_nonneg (Real.sin v)) hcc
    have hsv : Real.sin v ^ 2 ≤ v ^ 2 := Real.sin_sq_le_sq
    have hsu : Real.sin u ^ 2 ≤ u ^ 2 := Real.sin_sq_le_sq
    have hv2 : v ^ 2 ≤ (1 / 100) ^ 2 := pow_le_pow_left hv0.le hv1 2
    have hu2 : u ^ 2 ≤ (1 / 100) ^ 2 := by
      rw [← sq_abs]
      exact pow_le_pow_left (abs_nonneg u) hu1 2
    rw [ha]
    norm_num at hv2 hu2 ⊢
    linarith
  have hsqa : 7 / 10 * Real.sin v ≤ Real.sqrt a := by
    rw [show 7 / 10 * Real.sin v
      = Real.sqrt ((7 / 10 * Real.sin v) ^ 2) from
        (Real.sqrt_sq (by positivity)).symm]
    exact Real.sqrt_le_sqrt ha0
  have hsqa1 : Real.sqrt a ≤ 1 := by
    calc Real.sqrt a ≤ Real.sqrt 1 := Real.sqrt_le_sqrt ha1
    _ = 1 := Real.sqrt_one
  have harc : Real.sqrt a ≤ Real.arcsin (Real.sqrt a) :=
    le_arcsin _ (Real.sqrt_nonneg a) hsqa1
  linarith

lemma haversine_lat_pair (lat1 lon1 lat2 lon2 c : ℝ)
    (h1 : 0 ≤ lat1) (h3 : lat2 ≤ 89) (hΔ : 0 < lat2 - lat1) (hΔ1 : lat2 - lat1 ≤ 1)
    (hlon : |lon2 - lon1| ≤ 1)
    (hc : c ≤ 6371 * 2 *
      ((lat2 - lat1) * 3.141592 / 360 - ((lat2 - lat1) * 3.141593 / 360) ^ 3 / 4)) :
    c ≤ haversine_distance lat1 lon1 lat2 lon2 := by
  have hs := sin_scaled_lb (lat2 - lat1)
    ((lat2 - lat1) * 3.141592 / 360 - ((lat2 - lat1) * 3.141593 / 360) ^ 3 / 4)
    hΔ hΔ1 (le_refl _)
  have hmain := haversine_ge_lat lat1 lon1 lat2 lon2 h1 h3 hΔ hΔ1 hlon
  nlinarith

lemma haversine_lon_pair (lat1 lon1 lat2 lon2 c : ℝ)
    (h1 : 43 ≤ lat1) (h1' : lat1 ≤ 44) (h2 : 43 ≤ lat2) (h2' : lat2 ≤ 44)
    (hΔ : 0 < lon2 - lon1) (hΔ1 : lon2 - lon1 ≤ 1)
    (hc : c ≤ 6371 * 2 * (7 / 10 *
      ((lon2 - lon1) * 3.141592 / 360 - ((lon2 - lon1) * 3.141593 / 360) ^ 3 / 4))) :
    c ≤ haversine_distance lat1 lon1 lat2 lon2 := by
  have hs := sin_scaled_lb (lon2 - lon1)
    ((lon2 - lon1) * 3.141592 / 360 - ((lon2 - lon1) * 3.141593 / 360) ^ 3 / 4)
    hΔ hΔ1 (le_refl _)
  have hmain := haversine_ge_lon lat1 lon1 lat2 lon2 h1 h1' h2 h2' hΔ hΔ1
  nlinarith

lemma prox_unfold (lat lon : ℝ) :
    calculate_proximity_risk lat lon =
      max (max (max (max (max (max (max (max (max 1.0
        (1.0 + risk_contribution 2.5 (haversine_distance lat lon 43.6591 (-79.3879)) * 0.4))
        (1.0 + risk_contribution 3.0 (haversine_distance lat lon 43.6566 (-79.3900)) * 0.4))
        (1.0 + risk_contribution 2.5 (haversine_distance lat lon 43.7315 (-79.4558)) * 0.4))
        (1.0 + risk_contribution 2.2 (haversine_distance lat lon 43.6629 (-79.3957)) * 0.4))
        (1.0 + risk_contribution 2.2 (haversine_distance lat lon 43.7735 (-79.5019)) * 0.4))
        (1.0 + risk_contribution 2.0 (haversine_distance lat lon 43.7843 (-79.1864)) * 0.4))
        (1.0 + risk_contribution 1.8 (haversine_distance lat lon 43.6426 (-79.3871)) * 0.4))
        (1.0 + risk_contribution 1.5 (haversine_distance lat lon 43.7615 (-79.4111)) * 0.4))
        (1.0 + risk_contribution 1.5 (haversine_distance lat lon 43.7731 (-79.2578)) * 0.4) := rfl

/-- A helper for bounding one location's candidate term. -/
lemma term_le (w d lb target : ℝ) (hw : 0 ≤ w) (hlb : 0 ≤ lb) (hlb7 : lb ≤ 0.7)
    (hd : lb ≤ d) (ht : 1.0 + w * (1 - lb) * 0.4 ≤ target) :
    1.0 + risk_contribution w d * 0.4 ≤ target := by
  have h := risk_contribution_le_of_lb w d lb hw hlb hlb7 hd
  linarith

lemma prox_at_tgh :
    calculate_proximity_risk 43.6591 (-79.3879) = 1.0 + 2.5 * 0.4 := by
  have hd1 : (1/6 : ℝ) ≤ haversine_distance 43.6591 (-79.3879) 43.6566 (-79.3900) := by
    rw [haversine_comm]
    apply haversine_lat_pair 43.6566 (-79.3900) 43.6591 (-79.3879) (1/6)
    · norm_num
    · norm_num
    · norm_num
    · norm_num
    · rw [abs_le]
      constructor <;> norm_num
    · norm_num
  rw [prox_unfold]
  apply le_antisymm
  · refine max_le (max_le (max_le (max_le (max_le (max_le (max_le (max_le (max_le ?_ ?_) ?_) ?_) ?_) ?_) ?_) ?_) ?_) ?_
    · norm_num
    · rw [haversine_self, risk_contribution_self]
    · exact term_le 3.0 (haversine_distance 43.6591 (-79.3879) 43.6566 (-79.3900))
        (1/6) (1.0 + 2.5 * 0.4) (by norm_num) (by norm_num) (by norm_num)
        hd1 (by norm_num)
    · exact term_le 2.5 (haversine_distance 43.6591 (-79.3879) 43.7315 (-79.4558))
        (0) (1.0 + 2.5 * 0.4) (by norm_num) (by norm_num) (by norm_num)
        (haversine_nonneg 43.6591 (-79.3879) 43.7315 (-79.4558)) (by norm_num)
    · exact term_le 2.2 (haversine_distance 43.6591 (-79.3879) 43.6629 (-79.3957))
        (0) (1.0 + 2.5 * 0.4) (by norm_num) (by norm_num) (by norm_num)
        (haversine_nonneg 43.6591 (-79.3879) 43.6629 (-79.3957)) (by norm_num)
    · exact term_le 2.2 (haversine_distance 43.6591 (-79.3879) 43.7735 (-79.5019))
        (0) (1.0 + 2.5 * 0.4) (by norm_num) (by norm_num) (by norm_num)
        (haversine_nonneg 43.6591 (-79.3879) 43.7735 (-79.5019)) (by norm_num)
    · exact term_le 2.0 (haversine_distance 43.6591 (-79.3879) 43.7843 (-79.1864))
        (0) (1.0 + 2.5 * 0.4) (by norm_num) (by norm_num) (by norm_num)
        (haversine_nonneg 43.6591 (-79.3879) 43.7843 (-79.1864)) (by norm_num)
    · exact term_le 1.8 (haversine_distance 43.6591 (-79.3879) 43.6426 (-79.3871))
        (0) (1.0 + 2.5 * 0.4) (by norm_num) (by norm_num) (by norm_num)
        (haversine_nonneg 43.6591 (-79.3879) 43.6426 (-79.3871)) (by norm_num)
    · exact term_le 1.5 (haversine_distance 43.6591 (-79.3879) 43.7615 (-79.4111))
        (0) (1.0 + 2.5 * 0.4) (by norm_num) (by norm_num) (by norm_num)
        (haversine_nonneg 43.6591 (-79.3879) 43.7615 (-79.4111)) (by norm_num)
    · exact term_le 1.5 (haversine_distance 43.6591 (-79.3879) 43.7731 (-79.2578))
        (0) (1.0 + 2.5 * 0.4) (by norm_num) (by norm_num) (by norm_num)
        (haversine_nonneg 43.6591 (-79.3879) 43.7731 (-79.2578)) (by norm_num)
  · apply le_max_of_le_left
    apply le_max_of_le_left
    apply le_max_of_le_left
    apply le_max_of_le_left
    apply le_max_of_le_left
    apply le_max_of_le_left
    apply le_max_of_le_left
    apply le_max_of_le_left
    apply le_max_of_le_right
    rw [haversine_self, risk_contribution_self]

lemma prox_at_sickkids :
    calculate_proximity_risk 43.6566 (-79.3900) = 1.0 + 3.0 * 0.4 := by
  rw [prox_unfold]
  apply le_antisymm
  · refine max_le (max_le (max_le (max_le (max_le (max_le (max_le (max_le (max_le ?_ ?_) ?_) ?_) ?_) ?_) ?_) ?_) ?_) ?_
    · norm_num
    · exact term_le 2.5 (haversine_distance 43.6566 (-79.3900) 43.6591 (-79.3879))
        (0) (1.0 + 3.0 * 0.4) (by norm_num) (by norm_num) (by norm_num)
        (haversine_nonneg 43.6566 (-79.3900) 43.6591 (-79.3879)) (by norm_num)
    · rw [haversine_self, risk_contribution_self]
    · exact term_le 2.5 (haversine_distance 43.6566 (-79.3900) 43.7315 (-79.4558))
        (0) (1.0 + 3.0 * 0.4) (by norm_num) (by norm_num) (by norm_num)
        (haversine_nonneg 43.6566 (-79.3900) 43.7315 (-79.4558)) (by norm_num)
    · exact term_le 2.2 (haversine_distance 43.6566 (-79.3900) 43.6629 (-79.3957))
        (0) (1.0 + 3.0 * 0.4) (by norm_num) (by norm_num) (by norm_num)
        (haversine_nonneg 43.6566 (-79.3900) 43.6629 (-79.3957)) (by norm_num)
    · exact term_le 2.2 (haversine_distance 43.6566 (-79.3900) 43.7735 (-79.5019))
        (0) (1.0 + 3.0 * 0.4) (by norm_num) (by norm_num) (by norm_num)
        (haversine_nonneg 43.6566 (-79.3900) 43.7735 (-79.5019)) (by norm_num)
    · exact term_le 2.0 (haversine_distance 43.6566 (-79.3900) 43.7843 (-79.1864))
        (0) (1.0 + 3.0 * 0.4) (by norm_num) (by norm_num) (by norm_num)
        (haversine_nonneg 43.6566 (-79.3900) 43.7843 (-79.1864)) (by norm_num)
    · exact term_le 1.8 (haversine_distance 43.6566 (-79.3900) 43.6426 (-79.3871))
        (0) (1.0 + 3.0 * 0.4) (by norm_num) (by norm_num) (by norm_num)
        (haversine_nonneg 43.6566 (-79.3900) 43.6426 (-79.3871)) (by norm_num)
    · exact term_le 1.5 (haversine_distance 43.6566 (-79.3900) 43.7615 (-79.4111))
        (0) (1.0 + 3.0 * 0.4) (by norm_num) (by norm_num) (by norm_num)
        (haversine_nonneg 43.6566 (-79.3900) 43.7615 (-79.4111)) (by norm_num)
    · exact term_le 1.5 (haversine_distance 43.6566 (-79.3900) 43.7731 (-79.2578))
        (0) (1.0 + 3.0 * 0.4) (by norm_num) (by norm_num) (by norm_num)
        (haversine_nonneg 43.6566 (-79.3900) 43.7731 (-79.2578)) (by norm_num)
  · apply le_max_of_le_left
    apply le_max_of_le_left
    apply le_max_of_le_left
    apply le_max_of_le_left
    apply le_max_of_le_left
    apply le_max_of_le_left
    apply le_max_of_le_left
    apply le_max_of_le_right
    rw [haversine_self, risk_contribution_self]

lemma prox_at_sunnybrook :
    calculate_proximity_risk 43.7315 (-79.4558) = 1.0 + 2.5 * 0.4 := by
  have hd1 : (0.7 : ℝ) ≤ haversine_distance 43.7315 (-79.4558) 43.6566 (-79.3900) := by
    rw [haversine_comm]
    apply haversine_lat_pair 43.6566 (-79.3900) 43.7315 (-79.4558) (0.7)
    · norm_num
    · norm_num
    · norm_num
    · norm_num
    · rw [abs_le]
      constructor <;> norm_num
    · norm_num
  rw [prox_unfold]
  apply le_antisymm
  · refine max_le (max_le (max_le (max_le (max_le (max_le (max_le (max_le (max_le ?_ ?_) ?_) ?_) ?_) ?_) ?_) ?_) ?_) ?_
    · norm_num
    · exact term_le 2.5 (haversine_distance 43.7315 (-79.4558) 43.6591 (-79.3879))
        (0) (1.0 + 2.5 * 0.4) (by norm_num) (by norm_num) (by norm_num)
        (haversine_nonneg 43.7315 (-79.4558) 43.6591 (-79.3879)) (by norm_num)
    · exact term_le 3.0 (haversine_distance 43.7315 (-79.4558) 43.6566 (-79.3900))
        (0.7) (1.0 + 2.5 * 0.4) (by norm_num) (by norm_num) (by norm_num)
        hd1 (by norm_num)
    · rw [haversine_self, risk_contribution_self]
    · exact term_le 2.2 (haversine_distance 43.7315 (-79.4558) 43.6629 (-79.3957))
        (0) (1.0 + 2.5 * 0.4) (by norm_num) (by norm_num) (by norm_num)
        (haversine_nonneg 43.7315 (-79.4558) 43.6629 (-79.3957)) (by norm_num)
    · exact term_le 2.2 (haversine_distance 43.7315 (-79.4558) 43.7735 (-79.5019))
        (0) (1.0 + 2.5 * 0.4) (by norm_num) (by norm_num) (by norm_num)
        (haversine_nonneg 43.7315 (-79.4558) 43.7735 (-79.5019)) (by norm_num)
    · exact term_le 2.0 (haversine_distance 43.7315 (-79.4558) 43.7843 (-79.1864))
        (0) (1.0 + 2.5 * 0.4) (by norm_num) (by norm_num) (by norm_num)
        (haversine_nonneg 43.7315 (-79.4558) 43.7843 (-79.1864)) (by norm_num)
    · exact term_le 1.8 (haversine_distance 43.7315 (-79.4558) 43.6426 (-79.3871))
        (0) (1.0 + 2.5 * 0.4) (by norm_num) (by norm_num) (by norm_num)
        (haversine_nonneg 43.7315 (-79.4558) 43.6426 (-79.3871)) (by norm_num)
    · exact term_le 1.5 (haversine_distance 43.7315 (-79.4558) 43.7615 (-79.4111))
        (0) (1.0 + 2.5 * 0.4) (by norm_num) (by norm_num) (by norm_num)
        (haversine_nonneg 43.7315 (-79.4558) 43.7615 (-79.4111)) (by norm_num)
    · exact term_le 1.5 (haversine_distance 43.7315 (-79.4558) 43.7731 (-79.2578))
        (0) (1.0 + 2.5 * 0.4) (by norm_num) (by norm_num) (by norm_num)
        (haversine_nonneg 43.7315 (-79.4558) 43.7731 (-79.2578)) (by norm_num)
  · apply le_max_of_le_left
    apply le_max_of_le_left
    apply le_max_of_le_left
    apply le_max_of_le_left
    apply le_max_of_le_left
    apply le_max_of_le_left
    apply le_max_of_le_right
    rw [haversine_self, risk_contribution_self]

lemma prox_at_uoft :
    calculate_proximity_risk 43.6629 (-79.3957) = 1.0 + 2.2 * 0.4 := by
  have hd0 : (3/25 : ℝ) ≤ haversine_distance 43.6629 (-79.3957) 43.6591 (-79.3879) := by
    rw [haversine_comm]
    apply haversine_lat_pair 43.6591 (-79.3879) 43.6629 (-79.3957) (3/25)
    · norm_num
    · norm_num
    · norm_num
    · norm_num
    · rw [abs_le]
      constructor <;> norm_num
    · norm_num
  have hd1 : (4/15 : ℝ) ≤ haversine_distance 43.6629 (-79.3957) 43.6566 (-79.3900) := by
    rw [haversine_comm]
    apply haversine_lat_pair 43.6566 (-79.3900) 43.6629 (-79.3957) (4/15)
    · norm_num
    · norm_num
    · norm_num
    · norm_num
    · rw [abs_le]
      constructor <;> norm_num
    · norm_num
  have hd2 : (0.7 : ℝ) ≤ haversine_distance 43.6629 (-79.3957) 43.7315 (-79.4558) := by
    apply haversine_lat_pair 43.6629 (-79.3957) 43.7315 (-79.4558) (0.7)
    · norm_num
    · norm_num
    · norm_num
    · norm_num
    · rw [abs_le]
      constructor <;> norm_num
    · norm_num
  rw [prox_unfold]
  apply le_antisymm
  · refine max_le (max_le (max_le (max_le (max_le (max_le (max_le (max_le (max_le ?_ ?_) ?_) ?_) ?_) ?_) ?_) ?_) ?_) ?_
    · norm_num
    · exact term_le 2.5 (haversine_distance 43.6629 (-79.3957) 43.6591 (-79.3879))
        (3/25) (1.0 + 2.2 * 0.4) (by norm_num) (by norm_num) (by norm_num)
        hd0 (by norm_num)
    · exact term_le 3.0 (haversine_distance 43.6629 (-79.3957) 43.6566 (-79.3900))
        (4/15) (1.0 + 2.2 * 0.4) (by norm_num) (by norm_num) (by norm_num)
        hd1 (by norm_num)
    · exact term_le 2.5 (haversine_distance 43.6629 (-79.3957) 43.7315 (-79.4558))
        (0.7) (1.0 + 2.2 * 0.4) (by norm_num) (by norm_num) (by norm_num)
        hd2 (by norm_num)
    · rw [haversine_self, risk_contribution_self]
    · exact term_le 2.2 (haversine_distance 43.6629 (-79.3957) 43.7735 (-79.5019))
        (0) (1.0 + 2.2 * 0.4) (by norm_num) (by norm_num) (by norm_num)
        (haversine_nonneg 43.6629 (-79.3957) 43.7735 (-79.5019)) (by norm_num)
    · exact term_le 2.0 (haversine_distance 43.6629 (-79.3957) 43.7843 (-79.1864))
        (0) (1.0 + 2.2 * 0.4) (by norm_num) (by norm_num) (by norm_num)
        (haversine_nonneg 43.6629 (-79.3957) 43.7843 (-79.1864)) (by norm_num)
    · exact term_le 1.8 (haversine_distance 43.6629 (-79.3957) 43.6426 (-79.3871))
        (0) (1.0 + 2.2 * 0.4) (by norm_num) (by norm_num) (by norm_num)
        (haversine_nonneg 43.6629 (-79.3957) 43.6426 (-79.3871)) (by norm_num)
    · exact term_le 1.5 (haversine_distance 43.6629 (-79.3957) 43.7615 (-79.4111))
        (0) (1.0 + 2.2 * 0.4) (by norm_num) (by norm_num) (by norm_num)
        (haversine_nonneg 43.6629 (-79.3957) 43.7615 (-79.4111)) (by norm_num)
    · exact term_le 1.5 (haversine_distance 43.6629 (-79.3957) 43.7731 (-79.2578))
        (0) (1.0 + 2.2 * 0.4) (by norm_num) (by norm_num) (by norm_num)
        (haversine_nonneg 43.6629 (-79.3957) 43.7731 (-79.2578)) (by norm_num)
  · apply le_max_of_le_left
    apply le_max_of_le_left
    apply le_max_of_le_left
    apply le_max_of_le_left
    apply le_max_of_le_left
    apply le_max_of_le_right
    rw [haversine_self, risk_contribution_self]

lemma prox_at_york :
    calculate_proximity_risk 43.7735 (-79.5019) = 1.0 + 2.2 * 0.4 := by
  have hd0 : (0.7 : ℝ) ≤ haversine_distance 43.7735 (-79.5019) 43.6591 (-79.3879) := by
    rw [haversine_comm]
    apply haversine_lat_pair 43.6591 (-79.3879) 43.7735 (-79.5019) (0.7)
    · norm_num
    · norm_num
    · norm_num
    · norm_num
    · rw [abs_le]
      constructor <;> norm_num
    · norm_num
  have hd1 : (0.7 : ℝ) ≤ haversine_distance 43.7735 (-79.5019) 43.6566 (-79.3900) := by
    rw [haversine_comm]
    apply haversine_lat_pair 43.6566 (-79.3900) 43.7735 (-79.5019) (0.7)
    · norm_num
    · norm_num
    · norm_num
    · norm_num
    · rw [abs_le]
      constructor <;> norm_num
    · norm_num
  have hd2 : (0.7 : ℝ) ≤ haversine_distance 43.7735 (-79.5019) 43.7315 (-79.4558) := by
    rw [haversine_comm]
    apply haversine_lat_pair 43.7315 (-79.4558) 43.7735 (-79.5019) (0.7)
    · norm_num
    · norm_num
    · norm_num
    · norm_num
    · rw [abs_le]
      constructor <;> norm_num
    · norm_num
  rw [prox_unfold]
  apply le_antisymm
  · refine max_le (max_le (max_le (max_le (max_le (max_le (max_le (max_le (max_le ?_ ?_) ?_) ?_) ?_) ?_) ?_) ?_) ?_) ?_
    · norm_num
    · exact term_le 2.5 (haversine_distance 43.7735 (-79.5019) 43.6591 (-79.3879))
        (0.7) (1.0 + 2.2 * 0.4) (by norm_num) (by norm_num) (by norm_num)
        hd0 (by norm_num)
    · exact term_le 3.0 (haversine_distance 43.7735 (-79.5019) 43.6566 (-79.3900))
        (0.7) (1.0 + 2.2 * 0.4) (by norm_num) (by norm_num) (by norm_num)
        hd1 (by norm_num)
    · exact term_le 2.5 (haversine_distance 43.7735 (-79.5019) 43.7315 (-79.4558))
        (0.7) (1.0 + 2.2 * 0.4) (by norm_num) (by norm_num) (by norm_num)
        hd2 (by norm_num)
    · exact term_le 2.2 (haversine_distance 43.7735 (-79.5019) 43.6629 (-79.3957))
        (0) (1.0 + 2.2 * 0.4) (by norm_num) (by norm_num) (by norm_num)
        (haversine_nonneg 43.7735 (-79.5019) 43.6629 (-79.3957)) (by norm_num)
    · rw [haversine_self, risk_contribution_self]
    · exact term_le 2.0 (haversine_distance 43.7735 (-79.5019) 43.7843 (-79.1864))
        (0) (1.0 + 2.2 * 0.4) (by norm_num) (by norm_num) (by norm_num)
        (haversine_nonneg 43.7735 (-79.5019) 43.7843 (-79.1864)) (by norm_num)
    · exact term_le 1.8 (haversine_distance 43.7735 (-79.5019) 43.6426 (-79.3871))
        (0) (1.0 + 2.2 * 0.4) (by norm_num) (by norm_num) (by norm_num)
        (haversine_nonneg 43.7735 (-79.5019) 43.6426 (-79.3871)) (by norm_num)
    · exact term_le 1.5 (haversine_distance 43.7735 (-79.5019) 43.7615 (-79.4111))
        (0) (1.0 + 2.2 * 0.4) (by norm_num) (by norm_num) (by norm_num)
        (haversine_nonneg 43.7735 (-79.5019) 43.7615 (-79.4111)) (by norm_num)
    · exact term_le 1.5 (haversine_distance 43.7735 (-79.5019) 43.7731 (-79.2578))
        (0) (1.0 + 2.2 * 0.4) (by norm_num) (by norm_num) (by norm_num)
        (haversine_nonneg 43.7735 (-79.5019) 43.7731 (-79.2578)) (by norm_num)
  · apply le_max_of_le_left
    apply le_max_of_le_left
    apply le_max_of_le_left
    apply le_max_of_le_left
    apply le_max_of_le_right
    rw [haversine_self, risk_contribution_self]

lemma prox_at_utsc :
    calculate_proximity_risk 43.7843 (-79.1864) = 1.0 + 2.0 * 0.4 := by
  have hd0 : (0.7 : ℝ) ≤ haversine_distance 43.7843 (-79.1864) 43.6591 (-79.3879) := by
    rw [haversine_comm]
    apply haversine_lat_pair 43.6591 (-79.3879) 43.7843 (-79.1864) (0.7)
    · norm_num
    · norm_num
    · norm_num
    · norm_num
    · rw [abs_le]
      constructor <;> norm_num
    · norm_num
  have hd1 : (0.7 : ℝ) ≤ haversine_distance 43.7843 (-79.1864) 43.6566 (-79.3900) := by
    rw [haversine_comm]
    apply haversine_lat_pair 43.6566 (-79.3900) 43.7843 (-79.1864) (0.7)
    · norm_num
    · norm_num
    · norm_num
    · norm_num
    · rw [abs_le]
      constructor <;> norm_num
    · norm_num
  have hd2 : (0.7 : ℝ) ≤ haversine_distance 43.7843 (-79.1864) 43.7315 (-79.4558) := by
    rw [haversine_comm]
    apply haversine_lat_pair 43.7315 (-79.4558) 43.7843 (-79.1864) (0.7)
    · norm_num
    · norm_num
    · norm_num
    · norm_num
    · rw [abs_le]
      constructor <;> norm_num
    · norm_num
  have hd3 : (0.7 : ℝ) ≤ haversine_distance 43.7843 (-79.1864) 43.6629 (-79.3957) := by
    rw [haversine_comm]
    apply haversine_lat_pair 43.6629 (-79.3957) 43.7843 (-79.1864) (0.7)
    · norm_num
    · norm_num
    · norm_num
    · norm_num
    · rw [abs_le]
      constructor <;> norm_num
    · norm_num
  have hd4 : (0.7 : ℝ) ≤ haversine_distance 43.7843 (-79.1864) 43.7735 (-79.5019) := by
    rw [haversine_comm]
    apply haversine_lat_pair 43.7735 (-79.5019) 43.7843 (-79.1864) (0.7)
    · norm_num
    · norm_num
    · norm_num
    · norm_num
    · rw [abs_le]
      constructor <;> norm_num
    · norm_num
  rw [prox_unfold]
  apply le_antisymm
  · refine max_le (max_le (max_le (max_le (max_le (max_le (max_le (max_le (max_le ?_ ?_) ?_) ?_) ?_) ?_) ?_) ?_) ?_) ?_
    · norm_num
    · exact term_le 2.5 (haversine_distance 43.7843 (-79.1864) 43.6591 (-79.3879))
        (0.7) (1.0 + 2.0 * 0.4) (by norm_num) (by norm_num) (by norm_num)
        hd0 (by norm_num)
    · exact term_le 3.0 (haversine_distance 43.7843 (-79.1864) 43.6566 (-79.3900))
        (0.7) (1.0 + 2.0 * 0.4) (by norm_num) (by norm_num) (by norm_num)
        hd1 (by norm_num)
    · exact term_le 2.5 (haversine_distance 43.7843 (-79.1864) 43.7315 (-79.4558))
        (0.7) (1.0 + 2.0 * 0.4) (by norm_num) (by norm_num) (by norm_num)
        hd2 (by norm_num)
    · exact term_le 2.2 (haversine_distance 43.7843 (-79.1864) 43.6629 (-79.3957))
        (0.7) (1.0 + 2.0 * 0.4) (by norm_num) (by norm_num) (by norm_num)
        hd3 (by norm_num)
    · exact term_le 2.2 (haversine_distance 43.7843 (-79.1864) 43.7735 (-79.5019))
        (0.7) (1.0 + 2.0 * 0.4) (by norm_num) (by norm_num) (by norm_num)
        hd4 (by norm_num)
    · rw [haversine_self, risk_contribution_self]
    · exact term_le 1.8 (haversine_distance 43.7843 (-79.1864) 43.6426 (-79.3871))
        (0) (1.0 + 2.0 * 0.4) (by norm_num) (by norm_num) (by norm_num)
        (haversine_nonneg 43.7843 (-79.1864) 43.6426 (-79.3871)) (by norm_num)
    · exact term_le 1.5 (haversine_distance 43.7843 (-79.1864) 43.7615 (-79.4111))
        (0) (1.0 + 2.0 * 0.4) (by norm_num) (by norm_num) (by norm_num)
        (haversine_nonneg 43.7843 (-79.1864) 43.7615 (-79.4111)) (by norm_num)
    · exact term_le 1.5 (haversine_distance 43.7843 (-79.1864) 43.7731 (-79.2578))
        (0) (1.0 + 2.0 * 0.4) (by norm_num) (by norm_num) (by norm_num)
        (haversine_nonneg 43.7843 (-79.1864) 43.7731 (-79.2578)) (by norm_num)
  · apply le_max_of_le_left
    apply le_max_of_le_left
    apply le_max_of_le_left
    apply le_max_of_le_right
    rw [haversine_self, risk_contribution_self]

lemma prox_at_downtown :
    calculate_proximity_risk 43.6426 (-79.3871) = 1.0 + 1.8 * 0.4 := by
  have hd0 : (0.7 : ℝ) ≤ haversine_distance 43.6426 (-79.3871) 43.6591 (-79.3879) := by
    apply haversine_lat_pair 43.6426 (-79.3871) 43.6591 (-79.3879) (0.7)
    · norm_num
    · norm_num
    · norm_num
    · norm_num
    · rw [abs_le]
      constructor <;> norm_num
    · norm_num
  have hd1 : (0.7 : ℝ) ≤ haversine_distance 43.6426 (-79.3871) 43.6566 (-79.3900) := by
    apply haversine_lat_pair 43.6426 (-79.3871) 43.6566 (-79.3900) (0.7)
    · norm_num
    · norm_num
    · norm_num
    · norm_num
    · rw [abs_le]
      constructor <;> norm_num
    · norm_num
  have hd2 : (0.7 : ℝ) ≤ haversine_distance 43.6426 (-79.3871) 43.7315 (-79.4558) := by
    apply haversine_lat_pair 43.6426 (-79.3871) 43.7315 (-79.4558) (0.7)
    · norm_num
    · norm_num
    · norm_num
    · norm_num
    · rw [abs_le]
      constructor <;> norm_num
    · norm_num
  have hd3 : (0.7 : ℝ) ≤ haversine_distance 43.6426 (-79.3871) 43.6629 (-79.3957) := by
    apply haversine_lat_pair 43.6426 (-79.3871) 43.6629 (-79.3957) (0.7)
    · norm_num
    · norm_num
    · norm_num
    · norm_num
    · rw [abs_le]
      constructor <;> norm_num
    · norm_num
  have hd4 : (0.7 : ℝ) ≤ haversine_distance 43.6426 (-79.3871) 43.7735 (-79.5019) := by
    apply haversine_lat_pair 43.6426 (-79.3871) 43.7735 (-79.5019) (0.7)
    · norm_num
    · norm_num
    · norm_num
    · norm_num
    · rw [abs_le]
      constructor <;> norm_num
    · norm_num
  have hd5 : (0.7 : ℝ) ≤ haversine_distance 43.6426 (-79.3871) 43.7843 (-79.1864) := by
    apply haversine_lat_pair 43.6426 (-79.3871) 43.7843 (-79.1864) (0.7)
    · norm_num
    · norm_num
    · norm_num
    · norm_num
    · rw [abs_le]
      constructor <;> norm_num
    · norm_num
  rw [prox_unfold]
  apply le_antisymm
  · refine max_le (max_le (max_le (max_le (max_le (max_le (max_le (max_le (max_le ?_ ?_) ?_) ?_) ?_) ?_) ?_) ?_) ?_) ?_
    · norm_num
    · exact term_le 2.5 (haversine_distance 43.6426 (-79.3871) 43.6591 (-79.3879))
        (0.7) (1.0 + 1.8 * 0.4) (by norm_num) (by norm_num) (by norm_num)
        hd0 (by norm_num)
    · exact term_le 3.0 (haversine_distance 43.6426 (-79.3871) 43.6566 (-79.3900))
        (0.7) (1.0 + 1.8 * 0.4) (by norm_num) (by norm_num) (by norm_num)
        hd1 (by norm_num)
    · exact term_le 2.5 (haversine_distance 43.6426 (-79.3871) 43.7315 (-79.4558))
        (0.7) (1.0 + 1.8 * 0.4) (by norm_num) (by norm_num) (by norm_num)
        hd2 (by norm_num)
    · exact term_le 2.2 (haversine_distance 43.6426 (-79.3871) 43.6629 (-79.3957))
        (0.7) (1.0 + 1.8 * 0.4) (by norm_num) (by norm_num) (by norm_num)
        hd3 (by norm_num)
    · exact term_le 2.2 (haversine_distance 43.6426 (-79.3871) 43.7735 (-79.5019))
        (0.7) (1.0 + 1.8 * 0.4) (by norm_num) (by norm_num) (by norm_num)
        hd4 (by norm_num)
    · exact term_le 2.0 (haversine_distance 43.6426 (-79.3871) 43.7843 (-79.1864))
        (0.7) (1.0 + 1.8 * 0.4) (by norm_num) (by norm_num) (by norm_num)
        hd5 (by norm_num)
    · rw [haversine_self, risk_contribution_self]
    · exact term_le 1.5 (haversine_distance 43.6426 (-79.3871) 43.7615 (-79.4111))
        (0) (1.0 + 1.8 * 0.4) (by norm_num) (by norm_num) (by norm_num)
        (haversine_nonneg 43.6426 (-79.3871) 43.7615 (-79.4111)) (by norm_num)
    · exact term_le 1.5 (haversine_distance 43.6426 (-79.3871) 43.7731 (-79.2578))
        (0) (1.0 + 1.8 * 0.4) (by norm_num) (by norm_num) (by norm_num)
        (haversine_nonneg 43.6426 (-79.3871) 43.7731 (-79.2578)) (by norm_num)
  · apply le_max_of_le_left
    apply le_max_of_le_left
    apply le_max_of_le_right
    rw [haversine_self, risk_contribution_self]

lemma prox_at_northyork :
    calculate_proximity_risk 43.7615 (-79.4111) = 1.0 + 1.5 * 0.4 := by
  have hd0 : (0.7 : ℝ) ≤ haversine_distance 43.7615 (-79.4111) 43.6591 (-79.3879) := by
    rw [haversine_comm]
    apply haversine_lat_pair 43.6591 (-79.3879) 43.7615 (-79.4111) (0.7)
    · norm_num
    · norm_num
    · norm_num
    · norm_num
    · rw [abs_le]
      constructor <;> norm_num
    · norm_num
  have hd1 : (0.7 : ℝ) ≤ haversine_distance 43.7615 (-79.4111) 43.6566 (-79.3900) := by
    rw [haversine_comm]
    apply haversine_lat_pair 43.6566 (-79.3900) 43.7615 (-79.4111) (0.7)
    · norm_num
    · norm_num
    · norm_num
    · norm_num
    · rw [abs_le]
      constructor <;> norm_num
    · norm_num
  have hd2 : (0.7 : ℝ) ≤ haversine_distance 43.7615 (-79.4111) 43.7315 (-79.4558) := by
    rw [haversine_comm]
    apply haversine_lat_pair 43.7315 (-79.4558) 43.7615 (-79.4111) (0.7)
    · norm_num
    · norm_num
    · norm_num
    · norm_num
    · rw [abs_le]
      constructor <;> norm_num
    · norm_num
  have hd3 : (0.7 : ℝ) ≤ haversine_distance 43.7615 (-79.4111) 43.6629 (-79.3957) := by
    rw [haversine_comm]
    apply haversine_lat_pair 43.6629 (-79.3957) 43.7615 (-79.4111) (0.7)
    · norm_num
    · norm_num
    · norm_num
    · norm_num
    · rw [abs_le]
      constructor <;> norm_num
    · norm_num
  have hd4 : (0.7 : ℝ) ≤ haversine_distance 43.7615 (-79.4111) 43.7735 (-79.5019) := by
    apply haversine_lat_pair 43.7615 (-79.4111) 43.7735 (-79.5019) (0.7)
    · norm_num
    · norm_num
    · norm_num
    · norm_num
    · rw [abs_le]
      constructor <;> norm_num
    · norm_num
  have hd5 : (0.7 : ℝ) ≤ haversine_distance 43.7615 (-79.4111) 43.7843 (-79.1864) := by
    apply haversine_lat_pair 43.7615 (-79.4111) 43.7843 (-79.1864) (0.7)
    · norm_num
    · norm_num
    · norm_num
    · norm_num
    · rw [abs_le]
      constructor <;> norm_num
    · norm_num
  have hd6 : (0.7 : ℝ) ≤ haversine_distance 43.7615 (-79.4111) 43.6426 (-79.3871) := by
    rw [haversine_comm]
    apply haversine_lat_pair 43.6426 (-79.3871) 43.7615 (-79.4111) (0.7)
    · norm_num
    · norm_num
    · norm_num
    · norm_num
    · rw [abs_le]
      constructor <;> norm_num
    · norm_num
  rw [prox_unfold]
  apply le_antisymm
  · refine max_le (max_le (max_le (max_le (max_le (max_le (max_le (max_le (max_le ?_ ?_) ?_) ?_) ?_) ?_) ?_) ?_) ?_) ?_
    · norm_num
    · exact term_le 2.5 (haversine_distance 43.7615 (-79.4111) 43.6591 (-79.3879))
        (0.7) (1.0 + 1.5 * 0.4) (by norm_num) (by norm_num) (by norm_num)
        hd0 (by norm_num)
    · exact term_le 3.0 (haversine_distance 43.7615 (-79.4111) 43.6566 (-79.3900))
        (0.7) (1.0 + 1.5 * 0.4) (by norm_num) (by norm_num) (by norm_num)
        hd1 (by norm_num)
    · exact term_le 2.5 (haversine_distance 43.7615 (-79.4111) 43.7315 (-79.4558))
        (0.7) (1.0 + 1.5 * 0.4) (by norm_num) (by norm_num) (by norm_num)
        hd2 (by norm_num)
    · exact term_le 2.2 (haversine_distance 43.7615 (-79.4111) 43.6629 (-79.3957))
        (0.7) (1.0 + 1.5 * 0.4) (by norm_num) (by norm_num) (by norm_num)
        hd3 (by norm_num)
    · exact term_le 2.2 (haversine_distance 43.7615 (-79.4111) 43.7735 (-79.5019))
        (0.7) (1.0 + 1.5 * 0.4) (by norm_num) (by norm_num) (by norm_num)
        hd4 (by norm_num)
    · exact term_le 2.0 (haversine_distance 43.7615 (-79.4111) 43.7843 (-79.1864))
        (0.7) (1.0 + 1.5 * 0.4) (by norm_num) (by norm_num) (by norm_num)
        hd5 (by norm_num)
    · exact term_le 1.8 (haversine_distance 43.7615 (-79.4111) 43.6426 (-79.3871))
        (0.7) (1.0 + 1.5 * 0.4) (by norm_num) (by norm_num) (by norm_num)
        hd6 (by norm_num)
    · rw [haversine_self, risk_contribution_self]
    · exact term_le 1.5 (haversine_distance 43.7615 (-79.4111) 43.7731 (-79.2578))
        (0) (1.0 + 1.5 * 0.4) (by norm_num) (by norm_num) (by norm_num)
        (haversine_nonneg 43.7615 (-79.4111) 43.7731 (-79.2578)) (by norm_num)
  · apply le_max_of_le_left
    apply le_max_of_le_right
    rw [haversine_self, risk_contribution_self]

lemma prox_at_scarborough :
    calculate_proximity_risk 43.7731 (-79.2578) = 1.0 + 1.5 * 0.4 := by
  have hd0 : (0.7 : ℝ) ≤ haversine_distance 43.7731 (-79.2578) 43.6591 (-79.3879) := by
    rw [haversine_comm]
    apply haversine_lat_pair 43.6591 (-79.3879) 43.7731 (-79.2578) (0.7)
    · norm_num
    · norm_num
    · norm_num
    · norm_num
    · rw [abs_le]
      constructor <;> norm_num
    · norm_num
  have hd1 : (0.7 : ℝ) ≤ haversine_distance 43.7731 (-79.2578) 43.6566 (-79.3900) := by
    rw [haversine_comm]
    apply haversine_lat_pair 43.6566 (-79.3900) 43.7731 (-79.2578) (0.7)
    · norm_num
    · norm_num
    · norm_num
    · norm_num
    · rw [abs_le]
      constructor <;> norm_num
    · norm_num
  have hd2 : (0.7 : ℝ) ≤ haversine_distance 43.7731 (-79.2578) 43.7315 (-79.4558) := by
    rw [haversine_comm]
    apply haversine_lat_pair 43.7315 (-79.4558) 43.7731 (-79.2578) (0.7)
    · norm_num
    · norm_num
    · norm_num
    · norm_num
    · rw [abs_le]
      constructor <;> norm_num
    · norm_num
  have hd3 : (0.7 : ℝ) ≤ haversine_distance 43.7731 (-79.2578) 43.6629 (-79.3957) := by
    rw [haversine_comm]
    apply haversine_lat_pair 43.6629 (-79.3957) 43.7731 (-79.2578) (0.7)
    · norm_num
    · norm_num
    · norm_num
    · norm_num
    · rw [abs_le]
      constructor <;> norm_num
    · norm_num
  have hd4 : (0.7 : ℝ) ≤ haversine_distance 43.7731 (-79.2578) 43.7735 (-79.5019) := by
    rw [haversine_comm]
    apply haversine_lon_pair 43.7735 (-79.5019) 43.7731 (-79.2578) (0.7)
    · norm_num
    · norm_num
    · norm_num
    · norm_num
    · norm_num
    · norm_num
    · norm_num
  have hd5 : (0.7 : ℝ) ≤ haversine_distance 43.7731 (-79.2578) 43.7843 (-79.1864) := by
    apply haversine_lat_pair 43.7731 (-79.2578) 43.7843 (-79.1864) (0.7)
    · norm_num
    · norm_num
    · norm_num
    · norm_num
    · rw [abs_le]
      constructor <;> norm_num
    · norm_num
  have hd6 : (0.7 : ℝ) ≤ haversine_distance 43.7731 (-79.2578) 43.6426 (-79.3871) := by
    rw [haversine_comm]
    apply haversine_lat_pair 43.6426 (-79.3871) 43.7731 (-79.2578) (0.7)
    · norm_num
    · norm_num
    · norm_num
    · norm_num
    · rw [abs_le]
      constructor <;> norm_num
    · norm_num
  rw [prox_unfold]
  apply le_antisymm
  · refine max_le (max_le (max_le (max_le (max_le (max_le (max_le (max_le (max_le ?_ ?_) ?_) ?_) ?_) ?_) ?_) ?_) ?_) ?_
    · norm_num
    · exact term_le 2.5 (haversine_distance 43.7731 (-79.2578) 43.6591 (-79.3879))
        (0.7) (1.0 + 1.5 * 0.4) (by norm_num) (by norm_num) (by norm_num)
        hd0 (by norm_num)
    · exact term_le 3.0 (haversine_distance 43.7731 (-79.2578) 43.6566 (-79.3900))
        (0.7) (1.0 + 1.5 * 0.4) (by norm_num) (by norm_num) (by norm_num)
        hd1 (by norm_num)
    · exact term_le 2.5 (haversine_distance 43.7731 (-79.2578) 43.7315 (-79.4558))
        (0.7) (1.0 + 1.5 * 0.4) (by norm_num) (by norm_num) (by norm_num)
        hd2 (by norm_num)
    · exact term_le 2.2 (haversine_distance 43.7731 (-79.2578) 43.6629 (-79.3957))
        (0.7) (1.0 + 1.5 * 0.4) (by norm_num) (by norm_num) (by norm_num)
        hd3 (by norm_num)
    · exact term_le 2.2 (haversine_distance 43.7731 (-79.2578) 43.7735 (-79.5019))
        (0.7) (1.0 + 1.5 * 0.4) (by norm_num) (by norm_num) (by norm_num)
        hd4 (by norm_num)
    · exact term_le 2.0 (haversine_distance 43.7731 (-79.2578) 43.7843 (-79.1864))
        (0.7) (1.0 + 1.5 * 0.4) (by norm_num) (by norm_num) (by norm_num)
        hd5 (by norm_num)
    · exact term_le 1.8 (haversine_distance 43.7731 (-79.2578) 43.6426 (-79.3871))
        (0.7) (1.0 + 1.5 * 0.4) (by norm_num) (by norm_num) (by norm_num)
        hd6 (by norm_num)
    · exact term_le 1.5 (haversine_distance 43.7731 (-79.2578) 43.7615 (-79.4111))
        (0) (1.0 + 1.5 * 0.4) (by norm_num) (by norm_num) (by norm_num)
        (haversine_nonneg 43.7731 (-79.2578) 43.7615 (-79.4111)) (by norm_num)
    · rw [haversine_self, risk_contribution_self]
  · apply le_max_of_le_right
    rw [haversine_self, risk_contribution_self]

/-- Claim-side form of the multiplier: the maximum over all sensitive
locations of `1.0 + contribution × 0.4` (contributions are not summed). -/
noncomputable def claim_proximity_max (lat lon : ℝ) : ℝ :=
  (SENSITIVE_LOCATIONS.map (fun loc =>
    1.0 + risk_contribution loc.weight (haversine_distance lat lon loc.lat loc.lon) * 0.4)).foldl
    max 0

lemma claim_max_unfold (lat lon : ℝ) :
    claim_proximity_max lat lon =
      max (max (max (max (max (max (max (max (max 0
        (1.0 + risk_contribution 2.5 (haversine_distance lat lon 43.6591 (-79.3879)) * 0.4))
        (1.0 + risk_contribution 3.0 (haversine_distance lat lon 43.6566 (-79.3900)) * 0.4))
        (1.0 + risk_contribution 2.5 (haversine_distance lat lon 43.7315 (-79.4558)) * 0.4))
        (1.0 + risk_contribution 2.2 (haversine_distance lat lon 43.6629 (-79.3957)) * 0.4))
        (1.0 + risk_contribution 2.2 (haversine_distance lat lon 43.7735 (-79.5019)) * 0.4))
        (1.0 + risk_contribution 2.0 (haversine_distance lat lon 43.7843 (-79.1864)) * 0.4))
        (1.0 + risk_contribution 1.8 (haversine_distance lat lon 43.6426 (-79.3871)) * 0.4))
        (1.0 + risk_contribution 1.5 (haversine_distance lat lon 43.7615 (-79.4111)) * 0.4))
        (1.0 + risk_contribution 1.5 (haversine_distance lat lon 43.7731 (-79.2578)) * 0.4) := rfl

lemma prox_eq_claim_max (lat lon : ℝ) :
    calculate_proximity_risk lat lon = claim_proximity_max lat lon := by
  have hc := risk_contribution_nonneg 2.5
    (haversine_distance lat lon 43.6591 (-79.3879)) (by norm_num)
    (haversine_nonneg lat lon 43.6591 (-79.3879))
  have ht0 : (1.0 : ℝ) ≤
      1.0 + risk_contribution 2.5 (haversine_distance lat lon 43.6591 (-79.3879)) * 0.4 := by
    linarith
  have h00 : (0 : ℝ) ≤
      1.0 + risk_contribution 2.5 (haversine_distance lat lon 43.6591 (-79.3879)) * 0.4 := by
    linarith
  rw [prox_unfold, claim_max_unfold, max_eq_right ht0, max_eq_right h00]

/-- **C6.** A facility at the exact coordinates of any of the nine configured
sensitive locations has proximity multiplier exactly
`1.0 + location_weight × 0.4`; and for every coordinate pair the multiplier
equals the maximum over all sensitive locations of
`1.0 + contribution × 0.4` (contributions are never summed across
locations). -/
theorem proximity_at_sensitive_location (i : ℕ) (hi : i < SENSITIVE_LOCATIONS.length) :
    calculate_proximity_risk (SENSITIVE_LOCATIONS.get ⟨i, hi⟩).lat
        (SENSITIVE_LOCATIONS.get ⟨i, hi⟩).lon
      = 1.0 + (SENSITIVE_LOCATIONS.get ⟨i, hi⟩).weight * 0.4 ∧
    (∀ lat lon : ℝ, calculate_proximity_risk lat lon = claim_proximity_max lat lon) := by
  refine ⟨?_, fun lat lon => prox_eq_claim_max lat lon⟩
  have hi9 : i < 9 := by
    rw [show SENSITIVE_LOCATIONS.length = 9 from rfl] at hi
    exact hi
  interval_cases i
  · exact prox_at_tgh
  · exact prox_at_sickkids
  · exact prox_at_sunnybrook
  · exact prox_at_uoft
  · exact prox_at_york
  · exact prox_at_utsc
  · exact prox_at_downtown
  · exact prox_at_northyork
  · exact prox_at_scarborough

/-- Witness for C6 at SickKids (index 1, weight 3.0): the multiplier at its
exact coordinates is `1.0 + 3.0 × 0.4`. -/
theorem proximity_at_sensitive_location_witness :
    calculate_proximity_risk 43.6566 (-79.3900) = 1.0 + 3.0 * 0.4 :=
  (proximity_at_sensitive_location 1
    (by rw [show SENSITIVE_LOCATIONS.length = 9 from rfl]; norm_num)).1


end ChemTrac
